import Mathlib

/-!
Shallow embedding of `src/gi/function.c` (the gjs dynamic-to-native function
marshaling engine).  Machine integers that matter (`guint8` counters and
indices) are modelled as `Nat` with explicit wrap-around at 256; C ints that
can be negative (`gint` positions such as destroy/closure/array-length
indices) are modelled as `Int`.  External collaborators (girepository
accessors, SpiderMonkey conversions, libffi) are modelled as explicit data
or oracle parameters.
-/

namespace GjsFunction

/-- Wrap-around assignment of a C `gint` value into a `guint8` variable. -/
def toGuint8 (i : Int) : Nat := (i % 256).toNat

/-- Addition on a `guint8` variable (wraps at 256). -/
def u8add (a b : Nat) : Nat := (a + b) % 256

/-- Subtraction on a `guint8` variable (wraps at 256). -/
def u8sub (a b : Nat) : Nat := (a + 256 - b % 256) % 256

/-- Direction of a parameter, from `GIDirection`. -/
inductive GIDirection
  | GI_DIRECTION_IN
  | GI_DIRECTION_OUT
  | GI_DIRECTION_INOUT
  deriving DecidableEq, Repr, Inhabited

/-- Scope of a callback parameter, from `GIScopeType`. -/
inductive GIScopeType
  | GI_SCOPE_TYPE_CALL
  | GI_SCOPE_TYPE_ASYNC
  | GI_SCOPE_TYPE_NOTIFIED
  deriving DecidableEq, Repr, Inhabited

/-- Kind of an interface info, from `GIInfoType` (only the cases the engine
inspects are distinguished). -/
inductive GIInfoType
  | GI_INFO_TYPE_STRUCT
  | GI_INFO_TYPE_BOXED
  | GI_INFO_TYPE_UNION
  | GI_INFO_TYPE_OBJECT
  | GI_INFO_TYPE_CALLBACK
  | GI_INFO_TYPE_OTHER
  deriving DecidableEq, Repr, Inhabited

/-- Array representation kind, from `GIArrayType`. -/
inductive GIArrayType
  | GI_ARRAY_TYPE_C
  | GI_ARRAY_TYPE_OTHER
  deriving DecidableEq, Repr, Inhabited

/-- Type tags, from `GITypeTag` (scalar tags that the engine treats
uniformly are kept; the integer tags are the ones `get_length_from_arg`
dispatches on). -/
inductive GITypeTag
  | GI_TYPE_TAG_VOID
  | GI_TYPE_TAG_INT8
  | GI_TYPE_TAG_UINT8
  | GI_TYPE_TAG_INT16
  | GI_TYPE_TAG_UINT16
  | GI_TYPE_TAG_INT32
  | GI_TYPE_TAG_UINT32
  | GI_TYPE_TAG_INT64
  | GI_TYPE_TAG_UINT64
  | GI_TYPE_TAG_INTERFACE
  | GI_TYPE_TAG_ARRAY
  | GI_TYPE_TAG_OTHER
  deriving DecidableEq, Repr, Inhabited

/-- Ownership transfer annotation, from `GITransfer`. -/
inductive GITransfer
  | GI_TRANSFER_NOTHING
  | GI_TRANSFER_CONTAINER
  | GI_TRANSFER_EVERYTHING
  deriving DecidableEq, Repr, Inhabited

/-- The part of a `GIBaseInfo` for an interface type that the engine reads:
its info type, name, namespace and (for struct/union) its size. -/
structure GIInterfaceInfo where
  info_type : GIInfoType
  name : String
  ns : String
  size : Nat
  deriving DecidableEq, Repr, Inhabited

/-- The part of a `GITypeInfo` the engine reads.  `array_length` is the
`gint` returned by `g_type_info_get_array_length` (-1 when absent). -/
structure GITypeInfo where
  tag : GITypeTag
  interface : Option GIInterfaceInfo := none
  array_type : GIArrayType := GIArrayType.GI_ARRAY_TYPE_OTHER
  array_length : Int := -1
  deriving DecidableEq, Repr

instance : Inhabited GITypeInfo := ⟨{ tag := GITypeTag.GI_TYPE_TAG_VOID }⟩

/-- The part of a `GIArgInfo` the engine reads.  `destroy` and `closure`
are the `gint` results of `g_arg_info_get_destroy` / `g_arg_info_get_closure`
(-1 when absent). -/
structure GIArgInfo where
  direction : GIDirection
  type_info : GITypeInfo
  scope : GIScopeType := GIScopeType.GI_SCOPE_TYPE_CALL
  may_be_null : Bool := false
  destroy : Int := -1
  closure : Int := -1
  caller_allocates : Bool := false
  transfer : GITransfer := GITransfer.GI_TRANSFER_NOTHING
  name : String := "arg"
  deriving DecidableEq, Repr

instance : Inhabited GIArgInfo :=
  ⟨{ direction := GIDirection.GI_DIRECTION_IN, type_info := default }⟩

/-- The part of a `GIFunctionInfo` the engine reads: ordered argument list,
return type, whether the function is a method, whether it can report failure
through a `GError**` side channel, its identity for error messages, and the
ownership transfer of the return value (`g_callable_info_get_caller_owns`). -/
structure GIFunctionInfo where
  args : List GIArgInfo
  return_type : GITypeInfo
  is_method : Bool := false
  can_throw_gerror : Bool := false
  ns : String := "Ns"
  name : String := "fn"
  caller_owns : GITransfer := GITransfer.GI_TRANSFER_NOTHING
  container_type : GIInfoType := GIInfoType.GI_INFO_TYPE_STRUCT
  deriving DecidableEq, Repr

/-- Accessor mirroring `g_callable_info_get_n_args`. -/
def g_callable_info_get_n_args (info : GIFunctionInfo) : Nat := info.args.length

/-- Accessor mirroring `g_callable_info_load_arg` at a non-negative index. -/
def g_callable_info_load_arg (info : GIFunctionInfo) (i : Nat) : GIArgInfo :=
  info.args.getD i default

/-- Accessor mirroring `g_callable_info_load_arg` at a `gint` index (used
where the C code indexes with a `gint` position). -/
def g_callable_info_load_arg_i (info : GIFunctionInfo) (i : Int) : GIArgInfo :=
  if i < 0 then default else info.args.getD i.toNat default

/-- Parameter roles, from the `ParamType` enum of `function.c`.  Note that
`g_new0` zero-fills, so the initial role of every parameter is
`PARAM_NORMAL` (the enum value 0). -/
inductive ParamType
  | PARAM_NORMAL
  | PARAM_SKIPPED
  | PARAM_ARRAY
  | PARAM_CALLBACK
  deriving DecidableEq, Repr, Inhabited

/-- The cached per-function data, from the `Function` struct: the computed
parameter roles, the expected number of JS arguments (`guint8`), and the
number of JS values surfaced as results (`guint8`). -/
structure Function where
  param_types : List ParamType
  expected_js_argc : Nat
  js_out_argc : Nat
  deriving DecidableEq, Repr

/-- Descriptor-time errors: the two `gjs_throw` sites of
`init_cached_function_data`, each carrying the function identity that the C
format string interpolates. -/
inductive DescriptorError
  | destroy_without_user_data (ns name : String)
  | array_length_direction_mismatch (ns name : String)
  deriving DecidableEq, Repr

/-- Role-classification part of the loop body of
`init_cached_function_data` (lines 1133-1198 of `function.c`) for parameter
index `i`.  `destroy` and `closure` are declared `guint8` in the C code, so
the `gint` results of `g_arg_info_get_destroy` / `g_arg_info_get_closure`
are narrowed via wrap-around, a `-1` becoming 255; consequently the C
comparisons `destroy >= 0` and `closure < 0` are comparisons on unsigned
values and are translated as such. -/
def init_classify_arg (info : GIFunctionInfo) (n_args : Nat) (f : Function) (i : Nat) :
    Except DescriptorError Function :=
  let arg_info := g_callable_info_load_arg info i
  let type_info := arg_info.type_info
  let direction := arg_info.direction
  let type_tag := type_info.tag
  if type_tag = GITypeTag.GI_TYPE_TAG_INTERFACE then
    match type_info.interface with
    | some interface_info =>
      if interface_info.info_type = GIInfoType.GI_INFO_TYPE_CALLBACK then
        if interface_info.name = "DestroyNotify" ∧ interface_info.ns = "GLib" then
          -- Skip GDestroyNotify if they appear before the respective callback
          Except.ok { f with param_types := f.param_types.set i ParamType.PARAM_SKIPPED }
        else
          let f := { f with
            param_types := f.param_types.set i ParamType.PARAM_CALLBACK,
            expected_js_argc := u8add f.expected_js_argc 1 }
          let destroy : Nat := toGuint8 arg_info.destroy
          let closure : Nat := toGuint8 arg_info.closure
          let f := if destroy < n_args then
              { f with param_types := f.param_types.set destroy ParamType.PARAM_SKIPPED }
            else f
          let f := if closure < n_args then
              { f with param_types := f.param_types.set closure ParamType.PARAM_SKIPPED }
            else f
          if 0 ≤ destroy ∧ closure < 0 then
            Except.error (DescriptorError.destroy_without_user_data info.ns info.name)
          else
            Except.ok f
      else
        Except.ok f
    | none => Except.ok f
  else if type_tag = GITypeTag.GI_TYPE_TAG_ARRAY then
    if type_info.array_type = GIArrayType.GI_ARRAY_TYPE_C then
      -- array_length_pos is a guint8 local in the C code
      let array_length_pos : Nat := toGuint8 type_info.array_length
      if array_length_pos < n_args then
        let length_arg_info := g_callable_info_load_arg info array_length_pos
        if length_arg_info.direction ≠ direction then
          Except.error (DescriptorError.array_length_direction_mismatch info.ns info.name)
        else
          let f := { f with
            param_types := (f.param_types.set array_length_pos ParamType.PARAM_SKIPPED).set
              i ParamType.PARAM_ARRAY }
          if array_length_pos < i then
            -- we already collected array_length_pos, remove it
            let f := { f with expected_js_argc := u8sub f.expected_js_argc 1 }
            let f := if direction = GIDirection.GI_DIRECTION_OUT ∨
                direction = GIDirection.GI_DIRECTION_INOUT then
                { f with js_out_argc := u8sub f.js_out_argc 1 }
              else f
            Except.ok f
          else
            Except.ok f
      else
        Except.ok f
    else
      Except.ok f
  else
    Except.ok f

/-- Counting part of the loop body of `init_cached_function_data` (lines
1200-1206): every parameter left `PARAM_NORMAL` or marked `PARAM_ARRAY`
contributes to `expected_js_argc` when its direction is in/inout and to
`js_out_argc` when its direction is out/inout. -/
def init_count_arg (info : GIFunctionInfo) (f1 : Function) (i : Nat) : Function :=
  let direction := (g_callable_info_load_arg info i).direction
  let pt := f1.param_types.getD i ParamType.PARAM_NORMAL
  if pt = ParamType.PARAM_NORMAL ∨ pt = ParamType.PARAM_ARRAY then
    let f2 := if direction = GIDirection.GI_DIRECTION_IN ∨
        direction = GIDirection.GI_DIRECTION_INOUT then
        { f1 with expected_js_argc := u8add f1.expected_js_argc 1 }
      else f1
    if direction = GIDirection.GI_DIRECTION_OUT ∨
        direction = GIDirection.GI_DIRECTION_INOUT then
      { f2 with js_out_argc := u8add f2.js_out_argc 1 }
    else f2
  else f1

/-- Loop body of `init_cached_function_data` (lines 1122-1207): skip
already-marked parameters, classify the role, then count. -/
def init_loop_step (info : GIFunctionInfo) (n_args : Nat) (f : Function) (i : Nat) :
    Except DescriptorError Function :=
  if f.param_types.getD i ParamType.PARAM_NORMAL = ParamType.PARAM_SKIPPED then
    Except.ok f
  else
    match init_classify_arg info n_args f i with
    | Except.error e => Except.error e
    | Except.ok f1 => Except.ok (init_count_arg info f1 i)

/-- The descriptor classifier, `init_cached_function_data` (lines 1097-1214
of `function.c`).  The `g_function_info_prep_invoker` step is an external
collaborator and is not modelled; `n_args` and the return-type array-length
position are `guint8` locals in the C code. -/
def init_cached_function_data (info : GIFunctionInfo) :
    Except DescriptorError Function :=
  let return_type := info.return_type
  let f0 : Function := { param_types := [], expected_js_argc := 0, js_out_argc := 0 }
  let f0 := if return_type.tag ≠ GITypeTag.GI_TYPE_TAG_VOID then
      { f0 with js_out_argc := u8add f0.js_out_argc 1 }
    else f0
  let n_args : Nat := toGuint8 (Int.ofNat info.args.length)
  let f0 := { f0 with param_types := List.replicate n_args ParamType.PARAM_NORMAL }
  let array_length_pos : Nat := toGuint8 return_type.array_length
  let f0 := if array_length_pos < n_args then
      { f0 with param_types := f0.param_types.set array_length_pos ParamType.PARAM_SKIPPED }
    else f0
  (List.range n_args).foldlM (init_loop_step info n_args) f0

/-- Dynamic-language values (`jsval`).  Only the distinctions the engine
inspects are modelled: the null value, the undefined value, integers,
callables, plain objects, strings, and the array object built by
`JS_NewArrayObject` for composite results. -/
inductive JSVal
  | JSVAL_NULL
  | JSVAL_VOID
  | int (n : Int)
  | fn (id : Nat)
  | obj (id : Nat)
  | str (s : String)
  | arr (elems : List JSVal)
  deriving Repr, Inhabited

/-- Test mirroring `JS_TypeOfValue(context, v) == JSTYPE_FUNCTION`. -/
def JSVal.isFunction : JSVal → Bool
  | JSVal.fn _ => true
  | _ => false

/-- Conversion mirroring `JSVAL_TO_INT` (reads the integer payload). -/
def JSVAL_TO_INT : JSVal → Int
  | JSVal.int n => n
  | _ => 0

/-- Native argument slot values (`GArgument`).  The constructors record the
provenance the proofs need to distinguish: an uninitialized slot, a NULL
pointer, a pointer into `out_arg_cvalues`, the `&local_error` pointer, a
`g_slice_alloc0` block tagged by its C argument index, an integer payload,
an ffi closure pointer, the trampoline struct pointer (user data), the
`gjs_destroy_notify_callback` function pointer, and opaque values produced
by external conversions. -/
inductive GArg
  | v_uninit
  | v_null
  | v_ptr_out (i : Nat)
  | v_ptr_local_error
  | v_block (i : Nat)
  | v_int (n : Int)
  | v_closure (t : Nat)
  | v_tramp (t : Nat)
  | v_destroy_notify
  | v_opaque (n : Nat)
  deriving DecidableEq, Repr, Inhabited

/-- List update at a C `gint` index (no effect for a negative index). -/
def setI (l : List GArg) (i : Int) (v : GArg) : List GArg :=
  if i < 0 then l else l.set i.toNat v

/-- List read at a C `gint` index. -/
def getI (l : List GArg) (i : Int) : GArg :=
  if i < 0 then GArg.v_uninit else l.getD i.toNat GArg.v_uninit

/-- Sites at which an output is converted to a dynamic value after the
native call (the `gjs_value_from_g_argument` / `gjs_value_from_explicit_array`
calls of the result path). -/
inductive OutConvSite
  | of_return_array_length
  | of_return_value
  | of_arg_array_length (gi : Nat)
  | of_arg (gi : Nat)
  deriving DecidableEq, Repr

/-- Trampoline reference-count events performed by one invocation (creation
in `gjs_callback_trampoline_new`, the extra reference taken for
non-`Call`-scoped callbacks, and the release-pass unref). -/
inductive TrampEvent
  | created (t : Nat) (scope : GIScopeType)
  | extra_ref (t : Nat)
  | release_unref (t : Nat)
  deriving DecidableEq, Repr

/-- Behavior of the native callee for one `ffi_call`: the value written
into the return slot, the values it writes through the out pointers it was
handed (per C argument index), and the `GError` it reports through the
dedicated error channel, if any. -/
structure NativeBehavior where
  return_value : GArg
  out_writes : Nat → Option GArg
  gerror : Option String

/-- External collaborators of `gjs_invoke_c_function`, modelled as oracles:
the per-type conversion primitives, the release helpers (returning their
success), the receiver unwrap result and type check, and the native callee
itself. -/
structure Env where
  gjs_value_to_arg : GIArgInfo → JSVal → Option GArg
  gjs_value_to_explicit_array : JSVal → GIArgInfo → Option (GArg × Nat)
  gjs_value_from_g_argument : GITypeInfo → GArg → Option JSVal
  gjs_value_from_explicit_array : GITypeInfo → GArg → Int → Option JSVal
  gjs_g_argument_release : GITransfer → GITypeInfo → GArg → Bool
  gjs_g_argument_release_in_arg : GITransfer → GITypeInfo → GArg → Bool
  gjs_g_argument_release_in_array : GITransfer → GITypeInfo → Nat → GArg → Bool
  gjs_g_argument_release_out_array : GITransfer → GITypeInfo → Int → GArg → Bool
  this_pointer : GArg := GArg.v_opaque 0
  this_type_matches : Bool := true
  native : List GArg → NativeBehavior

/-- Mutable state of the argument-marshaling phase of
`gjs_invoke_c_function`: the four index-aligned slot arrays (the
`ffi_arg_pointers` indirection layer always points at `in_arg_cvalues` and
is left implicit), the three running positions, the `failed` flag, the
pending JS exception, and bookkeeping of `g_slice_alloc0` allocations and
trampoline events. -/
structure InvokeState where
  in_arg_cvalues : List GArg
  out_arg_cvalues : List GArg
  inout_original_arg_cvalues : List GArg
  js_arg_pos : Nat
  processed_c_args : Nat
  failed : Bool
  thrown : Option String
  allocs : List Nat
  tramp_events : List TrampEvent
  next_tramp : Nat
  deriving Repr

/-- Slot writes for a callback's companion parameters (lines 536-547):
the destroy-notifier slot receives `gjs_destroy_notify_callback` (or NULL
when no trampoline was built) and the user-data slot receives the
trampoline pointer (or NULL). -/
def callback_companion_slots (info : GIFunctionInfo) (arg_info : GIArgInfo)
    (st : InvokeState) (trampoline : Option Nat) : InvokeState :=
  let destroy_pos : Int := arg_info.destroy
  let closure_pos : Int := arg_info.closure
  let destroy_value := if trampoline.isSome then GArg.v_destroy_notify else GArg.v_null
  let closure_value := match trampoline with
    | some t => GArg.v_tramp t
    | none => GArg.v_null
  let st :=
    if 0 ≤ destroy_pos then
      let c_pos := destroy_pos + (if info.is_method then 1 else 0)
      { st with in_arg_cvalues := setI st.in_arg_cvalues c_pos destroy_value }
    else st
  if 0 ≤ closure_pos then
    let c_pos := closure_pos + (if info.is_method then 1 else 0)
    { st with in_arg_cvalues := setI st.in_arg_cvalues c_pos closure_value }
  else st

/-- The `Invalid callback given` message of lines 519-522. -/
def invalid_callback_message (info : GIFunctionInfo) (arg_info : GIArgInfo) : String :=
  "Error invoking " ++ info.ns ++ "." ++ info.name ++
    ": Invalid callback given for argument " ++ arg_info.name

/-- Marshaling of an out-direction parameter (lines 450-494): allocate a
zero-initialized block for caller-allocates struct/union outputs, otherwise
point the in-slot at the out-slot. -/
def marshal_out_arg (st : InvokeState) (arg_info : GIArgInfo) (c : Nat) : InvokeState :=
  if arg_info.caller_allocates then
      match arg_info.type_info.tag, arg_info.type_info.interface with
      | GITypeTag.GI_TYPE_TAG_INTERFACE, some interface_info =>
        if interface_info.info_type = GIInfoType.GI_INFO_TYPE_STRUCT ∨
            interface_info.info_type = GIInfoType.GI_INFO_TYPE_UNION then
          { st with
            in_arg_cvalues := st.in_arg_cvalues.set c (GArg.v_block c),
            out_arg_cvalues := st.out_arg_cvalues.set c (GArg.v_block c),
            allocs := st.allocs ++ [c],
            processed_c_args := st.processed_c_args + 1 }
        else
          { st with
            failed := true,
            thrown := some "Unsupported type for (out caller-allocates)" }
      | _, _ =>
        { st with
          failed := true,
          thrown := some "Unsupported type for (out caller-allocates)" }
    else
      { st with
        out_arg_cvalues := st.out_arg_cvalues.set c GArg.v_null,
        in_arg_cvalues := st.in_arg_cvalues.set c (GArg.v_ptr_out c),
        processed_c_args := st.processed_c_args + 1 }

/-- Marshaling of an in/inout-direction parameter (lines 495-624): dispatch
on the classified role, snapshot-and-redirect inout slots, then advance the
JS argument position for consuming roles and the processed count. -/
def marshal_in_arg (env : Env) (info : GIFunctionInfo) (function : Function)
    (js_argv : List JSVal) (st : InvokeState) (gi : Nat) : InvokeState :=
  let c : Nat := (if info.is_method then 1 else 0) + gi
  let arg_info := g_callable_info_load_arg info gi
  let direction := arg_info.direction
  let param_type := function.param_types.getD gi ParamType.PARAM_NORMAL
  let res : InvokeState × Bool :=
    match param_type with
    | ParamType.PARAM_CALLBACK =>
      let scope := arg_info.scope
      let value := js_argv.getD st.js_arg_pos JSVal.JSVAL_VOID
      if value matches JSVal.JSVAL_NULL then
        if arg_info.may_be_null then
          let st1 := callback_companion_slots info arg_info st none
          ({ st1 with in_arg_cvalues := st1.in_arg_cvalues.set c GArg.v_null }, false)
        else
          ({ st with
             failed := true,
             thrown := some (invalid_callback_message info arg_info) }, false)
      else if ¬ value.isFunction then
        ({ st with
           failed := true,
           thrown := some (invalid_callback_message info arg_info) }, false)
      else
        let t := st.next_tramp
        let st1 := { st with
          next_tramp := t + 1,
          tramp_events := st.tramp_events ++ [TrampEvent.created t scope] }
        let st2 := callback_companion_slots info arg_info st1 (some t)
        let st3 :=
          if scope ≠ GIScopeType.GI_SCOPE_TYPE_CALL then
            { st2 with tramp_events := st2.tramp_events ++ [TrampEvent.extra_ref t] }
          else st2
        ({ st3 with in_arg_cvalues := st3.in_arg_cvalues.set c (GArg.v_closure t) }, false)
    | ParamType.PARAM_SKIPPED => (st, true)
    | ParamType.PARAM_ARRAY =>
      let array_length_pos0 : Int := arg_info.type_info.array_length
      match env.gjs_value_to_explicit_array (js_argv.getD st.js_arg_pos JSVal.JSVAL_VOID)
          arg_info with
      | none => ({ st with failed := true }, false)
      | some (in_value, length) =>
        let st1 := { st with in_arg_cvalues := st.in_arg_cvalues.set c in_value }
        let array_length_arg := g_callable_info_load_arg_i info array_length_pos0
        let array_length_pos : Int :=
          array_length_pos0 + (if info.is_method then 1 else 0)
        match env.gjs_value_to_arg array_length_arg (JSVal.int (Int.ofNat length)) with
        | none => ({ st1 with failed := true }, false)
        | some lv =>
          let st2 := { st1 with
            in_arg_cvalues := setI st1.in_arg_cvalues array_length_pos lv }
          if direction = GIDirection.GI_DIRECTION_INOUT then
            if in_value = GArg.v_null then
              -- Special case where we were given JS null to also pass null
              -- for length, and not a pointer to an integer that derefs to 0.
              ({ st2 with
                 in_arg_cvalues := setI st2.in_arg_cvalues array_length_pos GArg.v_null,
                 out_arg_cvalues := setI st2.out_arg_cvalues array_length_pos GArg.v_null,
                 inout_original_arg_cvalues :=
                   setI st2.inout_original_arg_cvalues array_length_pos GArg.v_null }, false)
            else
              let orig_val := getI st2.in_arg_cvalues array_length_pos
              ({ st2 with
                 out_arg_cvalues := setI st2.out_arg_cvalues array_length_pos orig_val,
                 inout_original_arg_cvalues :=
                   setI st2.inout_original_arg_cvalues array_length_pos orig_val,
                 in_arg_cvalues := setI st2.in_arg_cvalues array_length_pos
                   (GArg.v_ptr_out array_length_pos.toNat) }, false)
          else (st2, false)
    | ParamType.PARAM_NORMAL =>
      match env.gjs_value_to_arg arg_info (js_argv.getD st.js_arg_pos JSVal.JSVAL_VOID) with
      | none => ({ st with failed := true }, false)
      | some v => ({ st with in_arg_cvalues := st.in_arg_cvalues.set c v }, false)
  let st1 := res.1
  let arg_removed := res.2
  let st2 :=
    if direction = GIDirection.GI_DIRECTION_INOUT ∧ ¬ arg_removed ∧ ¬ st1.failed then
      let v := st1.in_arg_cvalues.getD c GArg.v_uninit
      { st1 with
        out_arg_cvalues := st1.out_arg_cvalues.set c v,
        inout_original_arg_cvalues := st1.inout_original_arg_cvalues.set c v,
        in_arg_cvalues := st1.in_arg_cvalues.set c (GArg.v_ptr_out c) }
    else st1
  if st2.failed then st2
  else
    let st3 := if ¬ arg_removed then { st2 with js_arg_pos := st2.js_arg_pos + 1 } else st2
    { st3 with processed_c_args := st3.processed_c_args + 1 }

/-- One iteration of the argument-marshaling loop of
`gjs_invoke_c_function` (lines 437-625) for GI argument index `gi`, whose C
slot index is `gi` shifted by one for methods. -/
def marshal_one (env : Env) (info : GIFunctionInfo) (function : Function)
    (js_argv : List JSVal) (st : InvokeState) (gi : Nat) : InvokeState :=
  let c : Nat := (if info.is_method then 1 else 0) + gi
  let arg_info := g_callable_info_load_arg info gi
  if arg_info.direction = GIDirection.GI_DIRECTION_OUT then
    marshal_out_arg st arg_info c
  else
    marshal_in_arg env info function js_argv st gi

/-- The argument-marshaling loop: iterate `marshal_one` over the GI argument
indices, stopping at the first failure (the `break` of lines 612-622). -/
def marshal_loop (env : Env) (info : GIFunctionInfo) (function : Function)
    (js_argv : List JSVal) : InvokeState → List Nat → InvokeState
  | st, [] => st
  | st, gi :: rest =>
    let st1 := marshal_one env info function js_argv st gi
    if st1.failed then st1
    else marshal_loop env info function js_argv st1 rest

/-- Out-slot updates performed by the native call: the callee writes
through each pointer it received that aims at an out slot (out and inout
parameters); caller-allocates slots keep their block pointer. -/
def apply_native_out_writes (beh : NativeBehavior) (in_vals out_vals : List GArg) :
    List GArg :=
  (List.range out_vals.length).map (fun c =>
    if in_vals.getD c GArg.v_uninit = GArg.v_ptr_out c then
      (beh.out_writes c).getD (out_vals.getD c GArg.v_uninit)
    else out_vals.getD c GArg.v_uninit)

/-- State produced by the return-value phase (lines 661-718): the rooted
`return_values` array, the running result index, the updated `failed` flag
and the output-conversion events so far. -/
structure ResultPhase where
  return_values : List JSVal
  next_rval : Nat
  failed : Bool
  out_convs : List OutConvSite
  deriving Repr

/-- Return-value processing (lines 661-718): skipped entirely when the
function reported an error on the dedicated channel or surfaces no JS
results; otherwise converts the native return value (converting an
associated array length first when the return type is a length-carrying
array), releasing the native return per the transfer rule when conversion
succeeded. -/
def return_value_phase (env : Env) (info : GIFunctionInfo) (function : Function)
    (beh : NativeBehavior) (st : InvokeState) (did_throw_gerror : Bool) : ResultPhase :=
  let base : Int := if info.is_method then 1 else 0
  let return_info := info.return_type
  let return_tag := return_info.tag
  if 0 < function.js_out_argc ∧ ¬ did_throw_gerror then
    let rp0 : ResultPhase := {
      return_values := List.replicate function.js_out_argc JSVal.JSVAL_VOID,
      next_rval := 0, failed := st.failed, out_convs := [] }
    if return_tag ≠ GITypeTag.GI_TYPE_TAG_VOID then
      let transfer := info.caller_owns
      let array_length_pos0 : Int := return_info.array_length
      if 0 ≤ array_length_pos0 then
        let array_length_arg := g_callable_info_load_arg_i info array_length_pos0
        let arg_type_info := array_length_arg.type_info
        let array_length_pos := array_length_pos0 + base
        match env.gjs_value_from_g_argument arg_type_info
            (getI st.out_arg_cvalues array_length_pos) with
        | none =>
          { rp0 with
            failed := true, next_rval := 1,
            out_convs := [OutConvSite.of_return_array_length] }
        | some length =>
          match env.gjs_value_from_explicit_array return_info beh.return_value
              (JSVAL_TO_INT length) with
          | none =>
            { rp0 with
              failed := true, next_rval := 1,
              out_convs := [OutConvSite.of_return_array_length, OutConvSite.of_return_value] }
          | some v =>
            let ok := env.gjs_g_argument_release_out_array transfer return_info
              (JSVAL_TO_INT length) beh.return_value
            { rp0 with
              return_values := rp0.return_values.set 0 v,
              failed := rp0.failed ∨ ¬ ok, next_rval := 1,
              out_convs := [OutConvSite.of_return_array_length, OutConvSite.of_return_value] }
      else
        match env.gjs_value_from_g_argument return_info beh.return_value with
        | none =>
          { rp0 with
            failed := true, next_rval := 1,
            out_convs := [OutConvSite.of_return_value] }
        | some v =>
          let ok := env.gjs_g_argument_release transfer return_info beh.return_value
          { rp0 with
            return_values := rp0.return_values.set 0 v,
            failed := rp0.failed ∨ ¬ ok, next_rval := 1,
            out_convs := [OutConvSite.of_return_value] }
    else rp0
  else
    { return_values := [], next_rval := 0, failed := st.failed, out_convs := [] }

/-- Helper mirroring `get_length_from_arg` (lines 284-307): read an array
length back out of a native length slot. -/
def get_length_from_arg (arg : GArg) (_tag : GITypeTag) : Nat :=
  match arg with
  | GArg.v_int n => n.toNat
  | _ => 0

/-- Mutable state of the release pass (lines 720-892). -/
structure ReleaseState where
  in_arg_cvalues : List GArg
  out_arg_cvalues : List GArg
  inout_original_arg_cvalues : List GArg
  c_arg_pos : Nat
  next_rval : Nat
  return_values : List JSVal
  postinvoke_release_failed : Bool
  frees : List Nat
  released_in : List Nat
  out_convs : List OutConvSite
  tramp_events : List TrampEvent
  deriving Repr

/-- One iteration of the release pass (lines 726-892) for GI argument index
`gi`, at C slot `c_arg_pos`: release in/inout arguments per their transfer
rule (for inout, the snapshotted original with `GI_TRANSFER_NOTHING`),
unref callback trampolines; then, unless the call failed or reported a
native error, convert the out/inout slot to a JS value, free a
caller-allocates block, and release the converted output. -/
def release_in_payload (env : Env) (info : GIFunctionInfo) (function : Function)
    (rs : ReleaseState) (gi : Nat) : ReleaseState :=
  let c := rs.c_arg_pos
  let base : Int := if info.is_method then 1 else 0
  let arg_info := g_callable_info_load_arg info gi
  let direction := arg_info.direction
  let arg_type_info := arg_info.type_info
  let param_type := function.param_types.getD gi ParamType.PARAM_NORMAL
  let from_in := direction = GIDirection.GI_DIRECTION_IN
  let arg := if from_in then rs.in_arg_cvalues.getD c GArg.v_uninit
    else rs.inout_original_arg_cvalues.getD c GArg.v_uninit
  let transfer := if from_in then arg_info.transfer else GITransfer.GI_TRANSFER_NOTHING
  if param_type = ParamType.PARAM_CALLBACK then
    match arg with
    | GArg.v_closure t =>
      let rs := { rs with tramp_events := rs.tramp_events ++ [TrampEvent.release_unref t] }
      if from_in then
        { rs with in_arg_cvalues := rs.in_arg_cvalues.set c GArg.v_null }
      else
        { rs with inout_original_arg_cvalues :=
            rs.inout_original_arg_cvalues.set c GArg.v_null }
    | _ => rs
  else if param_type = ParamType.PARAM_ARRAY then
    let array_length_pos0 : Int := arg_type_info.array_length
    let array_length_arg := g_callable_info_load_arg_i info array_length_pos0
    let array_length_pos := array_length_pos0 + base
    let length := get_length_from_arg (getI rs.in_arg_cvalues array_length_pos)
      array_length_arg.type_info.tag
    let ok := env.gjs_g_argument_release_in_array transfer arg_type_info length arg
    { rs with
      released_in := rs.released_in ++ [gi],
      postinvoke_release_failed := rs.postinvoke_release_failed ∨ ¬ ok }
  else if param_type = ParamType.PARAM_NORMAL then
    let ok := env.gjs_g_argument_release_in_arg transfer arg_type_info arg
    { rs with
      released_in := rs.released_in ++ [gi],
      postinvoke_release_failed := rs.postinvoke_release_failed ∨ ¬ ok }
  else rs

def release_out_convert (env : Env) (info : GIFunctionInfo) (rs1 : ReleaseState)
    (gi : Nat) (c : Nat) : Bool × ReleaseState × Option Int :=
  let base : Int := if info.is_method then 1 else 0
  let arg_info := g_callable_info_load_arg info gi
  let arg_type_info := arg_info.type_info
  let arg := rs1.out_arg_cvalues.getD c GArg.v_uninit
  let array_length_pos0 : Int := arg_type_info.array_length
  if 0 ≤ array_length_pos0 then
    let array_length_arg := g_callable_info_load_arg_i info array_length_pos0
    let array_length_pos := array_length_pos0 + base
    match env.gjs_value_from_g_argument array_length_arg.type_info
        (getI rs1.out_arg_cvalues array_length_pos) with
      | none =>
        (true, { rs1 with out_convs := rs1.out_convs ++
          [OutConvSite.of_arg_array_length gi] }, none)
      | some array_length =>
        match env.gjs_value_from_explicit_array arg_type_info arg
            (JSVAL_TO_INT array_length) with
        | none =>
          (true, { rs1 with out_convs := rs1.out_convs ++
            [OutConvSite.of_arg_array_length gi, OutConvSite.of_arg gi] },
           some (JSVAL_TO_INT array_length))
        | some v =>
          (false, { rs1 with
            return_values := rs1.return_values.set rs1.next_rval v,
            out_convs := rs1.out_convs ++
              [OutConvSite.of_arg_array_length gi, OutConvSite.of_arg gi] },
           some (JSVAL_TO_INT array_length))
  else
    match env.gjs_value_from_g_argument arg_type_info arg with
    | none =>
      (true, { rs1 with out_convs := rs1.out_convs ++ [OutConvSite.of_arg gi] }, none)
    | some v =>
      (false, { rs1 with
        return_values := rs1.return_values.set rs1.next_rval v,
        out_convs := rs1.out_convs ++ [OutConvSite.of_arg gi] }, none)

def release_out_payload (env : Env) (info : GIFunctionInfo) (rs1 : ReleaseState)
    (gi : Nat) (c : Nat) : ReleaseState :=
  let arg_info := g_callable_info_load_arg info gi
  let arg_type_info := arg_info.type_info
  let arg := rs1.out_arg_cvalues.getD c GArg.v_uninit
  let array_length_pos0 : Int := arg_type_info.array_length
  let convPair : Bool × ReleaseState × Option Int := release_out_convert env info rs1 gi c
  let arg_failed := convPair.1
  let rsa := convPair.2.1
  let conv_length := convPair.2.2
  let rsb := { rsa with
    postinvoke_release_failed := rsa.postinvoke_release_failed ∨ arg_failed }
  let rsc :=
    if arg_info.caller_allocates then { rsb with frees := rsb.frees ++ [c] }
    else rsb
  let transfer := arg_info.transfer
  let rsd :=
    if ¬ arg_failed then
      if 0 ≤ array_length_pos0 then
        let _ := env.gjs_g_argument_release_out_array transfer arg_type_info
          (conv_length.getD 0) arg
        rsc
      else
        let _ := env.gjs_g_argument_release transfer arg_type_info arg
        rsc
    else rsc
  { rsd with next_rval := rsd.next_rval + 1 }

def release_one (env : Env) (info : GIFunctionInfo) (function : Function)
    (did_throw_gerror failed : Bool) (rs : ReleaseState) (gi : Nat) : ReleaseState :=
  let c := rs.c_arg_pos
  let arg_info := g_callable_info_load_arg info gi
  let direction := arg_info.direction
  let param_type := function.param_types.getD gi ParamType.PARAM_NORMAL
  let rs1 :=
    if direction = GIDirection.GI_DIRECTION_IN ∨ direction = GIDirection.GI_DIRECTION_INOUT then
      release_in_payload env info function rs gi
    else rs
  let rs2 :=
    if did_throw_gerror ∨ failed then rs1
    else if (direction = GIDirection.GI_DIRECTION_OUT ∨
        direction = GIDirection.GI_DIRECTION_INOUT) ∧
        param_type ≠ ParamType.PARAM_SKIPPED then
      release_out_payload env info rs1 gi c
    else rs1
  { rs2 with c_arg_pos := rs2.c_arg_pos + 1 }

/-- The release-pass loop (line 726): iterate over GI argument indices
while the C slot index is still below `processed_c_args`. -/
def release_loop (env : Env) (info : GIFunctionInfo) (function : Function)
    (did_throw_gerror failed : Bool) (processed_c_args : Nat) :
    ReleaseState → List Nat → ReleaseState
  | rs, [] => rs
  | rs, gi :: rest =>
    if rs.c_arg_pos < processed_c_args then
      release_loop env info function did_throw_gerror failed processed_c_args
        (release_one env info function did_throw_gerror failed rs gi) rest
    else rs

/-- Overall outcome of one invocation: either a JS result value or a thrown
error carrying the pending exception message (if one was modelled). -/
inductive Outcome
  | ok (v : JSVal)
  | exn (msg : Option String)
  deriving Repr

/-- Observable result of `gjs_invoke_c_function`: the outcome plus the
facts the specification speaks about — whether `ffi_call` ran, whether the
callee reported a `GError`, the `failed` flag at key points, the
caller-allocates allocation and free events, the in-argument release
events, the output-conversion events, the trampoline events, and the final
slot arrays. -/
structure InvokeResult where
  outcome : Outcome
  native_called : Bool
  did_throw_gerror : Bool
  marshal_failed : Bool
  failed_before_release : Bool
  gerror_msg : Option String
  allocs : List Nat
  frees : List Nat
  released_in : List Nat
  out_convs : List OutConvSite
  tramp_events : List TrampEvent
  final_in : List GArg
  final_out : List GArg
  final_orig : List GArg
  deriving Repr

/-- The `Too few arguments` message of lines 384-389. -/
def too_few_arguments_message (info : GIFunctionInfo) (function : Function)
    (js_argc : Nat) : String :=
  "Too few arguments to " ++ (if info.is_method then "method" else "function") ++
    " " ++ info.ns ++ "." ++ info.name ++ " expected " ++
    toString function.expected_js_argc ++ " got " ++ toString js_argc

/-- The `Error invoking` message surfaced for a native-reported error
(lines 923-926). -/
def error_invoking_message (info : GIFunctionInfo) (gerror_msg : String) : String :=
  "Error invoking " ++ info.ns ++ "." ++ info.name ++ ": " ++ gerror_msg

/-- Release pass plus final result assembly (lines 720-933), shared by the
marshaling-failure path and the path that performed the native call. -/
def invoke_finish (env : Env) (info : GIFunctionInfo) (function : Function)
    (st : InvokeState) (rp : ResultPhase) (did_throw_gerror : Bool)
    (gerror_msg : Option String) (native_called : Bool) : InvokeResult :=
  let base := if info.is_method then 1 else 0
  let gi_argc := g_callable_info_get_n_args info
  let rs0 : ReleaseState := {
    in_arg_cvalues := st.in_arg_cvalues,
    out_arg_cvalues := st.out_arg_cvalues,
    inout_original_arg_cvalues := st.inout_original_arg_cvalues,
    c_arg_pos := base, next_rval := rp.next_rval, return_values := rp.return_values,
    postinvoke_release_failed := false, frees := [], released_in := [],
    out_convs := rp.out_convs, tramp_events := st.tramp_events }
  let rs := release_loop env info function did_throw_gerror rp.failed
    st.processed_c_args rs0 (List.range gi_argc)
  let failed2 := rp.failed ∨ rs.postinvoke_release_failed
  let js_rval : JSVal :=
    if 0 < function.js_out_argc ∧ ¬ failed2 ∧ ¬ did_throw_gerror then
      if function.js_out_argc = 1 then rs.return_values.getD 0 JSVal.JSVAL_VOID
      else JSVal.arr rs.return_values
    else JSVal.JSVAL_VOID
  let outcome :=
    if ¬ failed2 ∧ did_throw_gerror then
      Outcome.exn (some (error_invoking_message info (gerror_msg.getD "")))
    else if failed2 then Outcome.exn st.thrown
    else Outcome.ok js_rval
  { outcome := outcome, native_called := native_called,
    did_throw_gerror := did_throw_gerror, marshal_failed := st.failed,
    failed_before_release := rp.failed, gerror_msg := gerror_msg,
    allocs := st.allocs, frees := rs.frees, released_in := rs.released_in,
    out_convs := rs.out_convs, tramp_events := rs.tramp_events,
    final_in := rs.in_arg_cvalues, final_out := rs.out_arg_cvalues,
    final_orig := rs.inout_original_arg_cvalues }

/-- Result of the arity check failing (lines 383-391): throw
`Too few arguments` and return without touching anything. -/
def invoke_arity_failure (info : GIFunctionInfo) (function : Function)
    (js_argc : Nat) : InvokeResult :=
  { outcome := Outcome.exn (some (too_few_arguments_message info function js_argc)),
    native_called := false, did_throw_gerror := false, marshal_failed := false,
    failed_before_release := false, gerror_msg := none,
    allocs := [], frees := [], released_in := [], out_convs := [], tramp_events := [],
    final_in := [], final_out := [], final_orig := [] }

/-- Initial invocation state (lines 396-434): the freshly allocated slot
arrays plus the method-receiver marshaling, whose type check can fail for
object containers. -/
def invoke_state_start (env : Env) (info : GIFunctionInfo) : InvokeState :=
  let base := if info.is_method then 1 else 0
  let gi_argc := g_callable_info_get_n_args info
  let c_argc := base + gi_argc + (if info.can_throw_gerror then 1 else 0)
  let st0 : InvokeState := {
    in_arg_cvalues := List.replicate c_argc GArg.v_uninit,
    out_arg_cvalues := List.replicate c_argc GArg.v_uninit,
    inout_original_arg_cvalues := List.replicate c_argc GArg.v_uninit,
    js_arg_pos := 0, processed_c_args := 0, failed := false, thrown := none,
    allocs := [], tramp_events := [], next_tramp := 0 }
  if info.is_method then
    let stm := { st0 with in_arg_cvalues := st0.in_arg_cvalues.set 0 env.this_pointer }
    if ¬ (info.container_type = GIInfoType.GI_INFO_TYPE_STRUCT ∨
          info.container_type = GIInfoType.GI_INFO_TYPE_BOXED ∨
          info.container_type = GIInfoType.GI_INFO_TYPE_UNION) ∧
        ¬ env.this_type_matches then
      { stm with failed := true, thrown := some "Expected type of receiver mismatch" }
    else stm
  else st0

/-- The whole marshaling phase: the receiver, then (unless the receiver
failed, line 429 jumping to release with `processed_c_args` still 0) the
argument loop with `processed_c_args` synchronized to the receiver slot
count (line 436). -/
def invoke_marshal (env : Env) (info : GIFunctionInfo) (function : Function)
    (js_argv : List JSVal) : InvokeState :=
  let base := if info.is_method then 1 else 0
  let st1 := invoke_state_start env info
  if st1.failed then st1
  else marshal_loop env info function js_argv
    { st1 with processed_c_args := base } (List.range (g_callable_info_get_n_args info))

/-- Installation of the `GError**` slot (lines 634-642): for a function
with the error side channel, the last C in-slot points at a local error
location. -/
def install_gerror_slot (info : GIFunctionInfo) (st2 : InvokeState) : InvokeState :=
  let base := if info.is_method then 1 else 0
  let gi_argc := g_callable_info_get_n_args info
  if info.can_throw_gerror then
    { st2 with in_arg_cvalues :=
        st2.in_arg_cvalues.set (base + gi_argc) GArg.v_ptr_local_error }
  else st2

/-- The path taken once marshaling succeeded (lines 634-718 plus the shared
tail): install the `GError**` slot, perform the `ffi_call`, process the
return value, then run the release pass and assemble the result. -/
def invoke_native_path (env : Env) (info : GIFunctionInfo) (function : Function)
    (st2 : InvokeState) : InvokeResult :=
  let can_throw_gerror := info.can_throw_gerror
  let st3 := install_gerror_slot info st2
  let beh := env.native st3.in_arg_cvalues
  let did_throw_gerror := can_throw_gerror && beh.gerror.isSome
  let gerror_msg := if can_throw_gerror then beh.gerror else none
  let st4 := { st3 with
    out_arg_cvalues := apply_native_out_writes beh st3.in_arg_cvalues st3.out_arg_cvalues }
  let rp := return_value_phase env info function beh st4 did_throw_gerror
  invoke_finish env info function st4 rp did_throw_gerror gerror_msg true

/-- The invocation entry point `gjs_invoke_c_function` (lines 309-934):
arity check, marshaling, and either the release of a failed marshal (lines
629-632: `did_throw_gerror` is false and the native call is skipped) or the
native-call path. -/
def gjs_invoke_c_function (env : Env) (info : GIFunctionInfo) (function : Function)
    (js_argv : List JSVal) : InvokeResult :=
  if js_argv.length < function.expected_js_argc then
    invoke_arity_failure info function js_argv.length
  else
    let st2 := invoke_marshal env info function js_argv
    if st2.failed then
      invoke_finish env info function st2
        { return_values := [], next_rval := 0, failed := st2.failed, out_convs := [] }
        false none false
    else invoke_native_path env info function st2

/-!
Trampoline lifecycle model.  `GjsCallbackTrampoline` objects are manually
reference counted (lines 126-148); the process-wide `completed_trampolines`
list (line 73) holds trampolines whose closures are logically dead but not
yet freed; `gjs_invoke_c_function` drains it before marshaling (lines
355-362).  Trampolines are identified by `Nat` tokens.
-/

/-- Process-wide trampoline state: the per-trampoline reference count
(`gint`, so modelled as `Int`), the cumulative log of `g_slice_free`
events of trampolines (a trampoline id may appear more than once only if
the code frees it twice), and the `completed_trampolines` list. -/
structure TrampWorld where
  ref_count : Nat → Int
  freed : List Nat
  completed_trampolines : List Nat

/-- Mirror of `gjs_callback_trampoline_ref` (lines 126-130). -/
def gjs_callback_trampoline_ref (w : TrampWorld) (t : Nat) : TrampWorld :=
  { w with ref_count := fun u => if u = t then w.ref_count t + 1 else w.ref_count u }

/-- Mirror of `gjs_callback_trampoline_unref` (lines 132-148): decrement,
and free the trampoline's resources when the count reaches zero. -/
def gjs_callback_trampoline_unref (w : TrampWorld) (t : Nat) : TrampWorld :=
  let rc := w.ref_count t - 1
  let w1 := { w with ref_count := fun u => if u = t then rc else w.ref_count u }
  if rc = 0 then { w1 with freed := w1.freed ++ [t] } else w1

/-- Mirror of `gjs_destroy_notify_callback` (lines 243-250). -/
def gjs_destroy_notify_callback (w : TrampWorld) (t : Nat) : TrampWorld :=
  gjs_callback_trampoline_unref w t

/-- Mirror of the creation in `gjs_callback_trampoline_new` (line 267):
the new trampoline starts with reference count 1. -/
def gjs_callback_trampoline_new (w : TrampWorld) (t : Nat) : TrampWorld :=
  { w with ref_count := fun u => if u = t then 1 else w.ref_count u }

/-- Mirror of the epilogue of `gjs_callback_closure` (lines 233-235): after
every invocation of an `Async`-scoped trampoline, prepend it to the
process-wide `completed_trampolines` list. -/
def gjs_callback_closure_epilogue (w : TrampWorld) (t : Nat) (scope : GIScopeType) :
    TrampWorld :=
  if scope = GIScopeType.GI_SCOPE_TYPE_ASYNC then
    { w with completed_trampolines := t :: w.completed_trampolines }
  else w

/-- Mirror of the drain at the top of `gjs_invoke_c_function` (lines
355-362): unref every queued trampoline, then empty the list. -/
def drain_completed_trampolines (w : TrampWorld) : TrampWorld :=
  let w1 := w.completed_trampolines.foldl (fun acc t => gjs_callback_trampoline_unref acc t) w
  { w1 with completed_trampolines := [] }

/-- The trampoline-relevant events of one top-level `gjs_invoke_c_function`
call that marshals a single callback parameter of the given scope into a
fresh trampoline `t`: the drain (lines 355-362), trampoline creation (line
528), the extra reference for non-`Call` scopes (lines 549-553), the native
call during which native code invokes the closure `native_invocations`
times (each invocation running the epilogue of `gjs_callback_closure`), and
the release-pass unref (line 760).  Native code is assumed not to run the
destroy notifier during the call. -/
def invoke_with_callback (scope : GIScopeType) (t : Nat) (native_invocations : Nat)
    (w : TrampWorld) : TrampWorld :=
  let w1 := drain_completed_trampolines w
  let w2 := gjs_callback_trampoline_new w1 t
  let w3 := if scope ≠ GIScopeType.GI_SCOPE_TYPE_CALL then
      gjs_callback_trampoline_ref w2 t
    else w2
  let w4 := (fun x => gjs_callback_closure_epilogue x t scope)^[native_invocations] w3
  gjs_callback_trampoline_unref w4 t

/-!
Reverse path: `gjs_callback_closure` (lines 158-238), through which native
code invokes a wrapped dynamic callable.
-/

/-- External collaborators of `gjs_callback_closure`: native-to-dynamic
argument conversion, invocation of the wrapped callable, conversion of its
result back to the native return type, and the type-appropriate default
filler `gjs_g_argument_init_default`. -/
structure CallbackEnv where
  gjs_value_from_g_argument : GITypeInfo → GArg → Option JSVal
  JS_CallFunctionValue : List JSVal → Option JSVal
  gjs_value_to_g_argument : JSVal → GITypeInfo → Option GArg
  gjs_g_argument_init_default : GITypeInfo → GArg

/-- The wrapped-callable data a trampoline carries: the callback's own
signature and its scope. -/
structure TrampolineData where
  info : GIFunctionInfo
  scope : GIScopeType

/-- Argument-conversion loop of `gjs_callback_closure` (lines 182-198):
convert each native argument to a dynamic value, skipping `void *`
arguments; stop at the first failure. -/
def callback_convert_args (env : CallbackEnv) :
    List (GIArgInfo × GArg) → Option (List JSVal)
  | [] => some []
  | (arg_info, a) :: rest =>
    if arg_info.type_info.tag = GITypeTag.GI_TYPE_TAG_VOID then
      callback_convert_args env rest
    else
      match env.gjs_value_from_g_argument arg_info.type_info a with
      | none => none
      | some v =>
        match callback_convert_args env rest with
        | none => none
        | some vs => some (v :: vs)

/-- Observable result of one run of `gjs_callback_closure`: the value
stored in the native return slot, the C `success` flag, whether the failure
was reported through the exception channel (`gjs_log_exception`), and
whether the trampoline was queued on `completed_trampolines`. -/
structure ClosureResult where
  result : GArg
  success : Bool
  logged_exception : Bool
  enqueued_async : Bool
  deriving DecidableEq, Repr

/-- The success path of `gjs_callback_closure` (lines 182-221): convert the
native arguments, call the wrapped callable, convert its result back to the
native return type; `none` when any of the three steps fails. -/
def callback_success_path (env : CallbackEnv) (trampoline : TrampolineData)
    (args : List GArg) : Option GArg :=
  match callback_convert_args env (trampoline.info.args.zip args) with
  | none => none
  | some jsargs =>
    match env.JS_CallFunctionValue jsargs with
    | none => none
    | some rval => env.gjs_value_to_g_argument rval trampoline.info.return_type

/-- The ffi closure entry point `gjs_callback_closure` (lines 158-238):
run the success path; on any failure log the pending exception and fill the
return slot with a type-appropriate default.  Async-scoped trampolines are
enqueued on `completed_trampolines` whether or not the invocation
succeeded. -/
def gjs_callback_closure (env : CallbackEnv) (trampoline : TrampolineData)
    (args : List GArg) : ClosureResult :=
  let ret_type := trampoline.info.return_type
  match callback_success_path env trampoline args with
  | some r =>
    { result := r, success := true, logged_exception := false,
      enqueued_async := decide (trampoline.scope = GIScopeType.GI_SCOPE_TYPE_ASYNC) }
  | none =>
    { result := env.gjs_g_argument_init_default ret_type, success := false,
      logged_exception := true,
      enqueued_async := decide (trampoline.scope = GIScopeType.GI_SCOPE_TYPE_ASYNC) }

/-!
Supporting lemmas about the classifier.
-/

/-- Test whether a descriptor build ended in the destroy-without-user-data
rejection. -/
def is_destroy_user_data_error : Except DescriptorError Function → Bool
  | Except.error (DescriptorError.destroy_without_user_data _ _) => true
  | _ => false

/-- The empty process-wide trampoline state at engine startup. -/
def tramp_world0 : TrampWorld :=
  { ref_count := fun _ => 0, freed := [], completed_trampolines := [] }

/-!
Concrete fixtures used by counterexamples and witnesses.
-/

/-- Callback interface type that is not GLib.DestroyNotify. -/
def c2_cb_type : GITypeInfo :=
  { tag := GITypeTag.GI_TYPE_TAG_INTERFACE,
    interface := some { info_type := GIInfoType.GI_INFO_TYPE_CALLBACK,
                        name := "FooFunc", ns := "Test", size := 0 } }

/-- The GLib.DestroyNotify callback interface type. -/
def c2_destroy_type : GITypeInfo :=
  { tag := GITypeTag.GI_TYPE_TAG_INTERFACE,
    interface := some { info_type := GIInfoType.GI_INFO_TYPE_CALLBACK,
                        name := "DestroyNotify", ns := "GLib", size := 0 } }

/-- A function whose metadata declares, on its callback parameter 0, the
destroy-notifier parameter 1 but no user-data (closure) parameter. -/
def c2_info : GIFunctionInfo :=
  { args := [
      { direction := GIDirection.GI_DIRECTION_IN, type_info := c2_cb_type,
        scope := GIScopeType.GI_SCOPE_TYPE_NOTIFIED, destroy := 1, closure := -1 },
      { direction := GIDirection.GI_DIRECTION_IN, type_info := c2_destroy_type } ],
    return_type := { tag := GITypeTag.GI_TYPE_TAG_VOID } }

/-- A function with an out-direction length parameter at native index 0
followed by its out-direction C-array parameter at index 1. -/
def c4_info : GIFunctionInfo :=
  { args := [
      { direction := GIDirection.GI_DIRECTION_OUT,
        type_info := { tag := GITypeTag.GI_TYPE_TAG_INT32 } },
      { direction := GIDirection.GI_DIRECTION_OUT,
        type_info := { tag := GITypeTag.GI_TYPE_TAG_ARRAY,
                       array_type := GIArrayType.GI_ARRAY_TYPE_C,
                       array_length := 0 } } ],
    return_type := { tag := GITypeTag.GI_TYPE_TAG_VOID } }

/-- The same signature as `c4_info` but with in-direction parameters. -/
def c4_in_info : GIFunctionInfo :=
  { args := [
      { direction := GIDirection.GI_DIRECTION_IN,
        type_info := { tag := GITypeTag.GI_TYPE_TAG_INT32 } },
      { direction := GIDirection.GI_DIRECTION_IN,
        type_info := { tag := GITypeTag.GI_TYPE_TAG_ARRAY,
                       array_type := GIArrayType.GI_ARRAY_TYPE_C,
                       array_length := 0 } } ],
    return_type := { tag := GITypeTag.GI_TYPE_TAG_VOID } }

/-- A callback environment whose wrapped callable always fails. -/
def failing_callback_env : CallbackEnv :=
  { gjs_value_from_g_argument := fun _ _ => some (JSVal.int 1),
    JS_CallFunctionValue := fun _ => none,
    gjs_value_to_g_argument := fun _ _ => some (GArg.v_int 0),
    gjs_g_argument_init_default := fun _ => GArg.v_int 0 }

/-- A trampoline around a no-argument callback returning an int32. -/
def c9_trampoline : TrampolineData :=
  { info := { args := [], return_type := { tag := GITypeTag.GI_TYPE_TAG_INT32 } },
    scope := GIScopeType.GI_SCOPE_TYPE_CALL }

/-- A function whose only parameter is a GLib.DestroyNotify callback. -/
def c10_info : GIFunctionInfo :=
  { args := [ { direction := GIDirection.GI_DIRECTION_IN, type_info := c2_destroy_type } ],
    return_type := { tag := GITypeTag.GI_TYPE_TAG_VOID } }

/-- The zero-initialized `Function` for a one-parameter signature. -/
def c10_f0 : Function :=
  { param_types := [ParamType.PARAM_NORMAL], expected_js_argc := 0, js_out_argc := 0 }

/-- The `Env` used for concrete invocation scenarios: integer values map to
integer slots, JS null maps to a NULL array pointer, conversions back
produce the stored integer, releases succeed, and the native callee writes
10 into every out slot it was handed. -/
def test_env : Env :=
  { gjs_value_to_arg := fun _ v => match v with
      | JSVal.int n => some (GArg.v_int n)
      | JSVal.JSVAL_NULL => some GArg.v_null
      | _ => some (GArg.v_opaque 7),
    gjs_value_to_explicit_array := fun v _ => match v with
      | JSVal.JSVAL_NULL => some (GArg.v_null, 0)
      | JSVal.arr es => some (GArg.v_opaque 99, es.length)
      | _ => none,
    gjs_value_from_g_argument := fun _ a => match a with
      | GArg.v_int n => some (JSVal.int n)
      | _ => some (JSVal.obj 5),
    gjs_value_from_explicit_array := fun _ _ len => some (JSVal.int len),
    gjs_g_argument_release := fun _ _ _ => true,
    gjs_g_argument_release_in_arg := fun _ _ _ => true,
    gjs_g_argument_release_in_array := fun _ _ _ _ => true,
    gjs_g_argument_release_out_array := fun _ _ _ _ => true,
    native := fun _ => { return_value := GArg.v_int 0,
                         out_writes := fun _ => some (GArg.v_int 10),
                         gerror := none } }

/-- A function with an inout C-array parameter at index 0 whose inout
length parameter is at index 1. -/
def c8_info : GIFunctionInfo :=
  { args := [
      { direction := GIDirection.GI_DIRECTION_INOUT,
        type_info := { tag := GITypeTag.GI_TYPE_TAG_ARRAY,
                       array_type := GIArrayType.GI_ARRAY_TYPE_C, array_length := 1 } },
      { direction := GIDirection.GI_DIRECTION_INOUT,
        type_info := { tag := GITypeTag.GI_TYPE_TAG_INT32 } } ],
    return_type := { tag := GITypeTag.GI_TYPE_TAG_VOID } }

/-- The cached data the classifier computes for `c8_info`. -/
def c8_f : Function :=
  { param_types := [ParamType.PARAM_ARRAY, ParamType.PARAM_SKIPPED],
    expected_js_argc := 1, js_out_argc := 1 }

/-- A fresh marshaling state with two argument slots. -/
def c8_st0 : InvokeState :=
  { in_arg_cvalues := List.replicate 2 GArg.v_uninit,
    out_arg_cvalues := List.replicate 2 GArg.v_uninit,
    inout_original_arg_cvalues := List.replicate 2 GArg.v_uninit,
    js_arg_pos := 0, processed_c_args := 0, failed := false, thrown := none,
    allocs := [], tramp_events := [], next_tramp := 0 }

def caller_allocates_supported (arg_info : GIArgInfo) : Bool :=
  match arg_info.type_info.tag, arg_info.type_info.interface with
  | GITypeTag.GI_TYPE_TAG_INTERFACE, some interface_info =>
    decide (interface_info.info_type = GIInfoType.GI_INFO_TYPE_STRUCT) ||
    decide (interface_info.info_type = GIInfoType.GI_INFO_TYPE_UNION)
  | _, _ => false

def alloc_here (info : GIFunctionInfo) (gi : Nat) : Bool :=
  let a := g_callable_info_load_arg info gi
  decide (a.direction = GIDirection.GI_DIRECTION_OUT) && a.caller_allocates &&
    caller_allocates_supported a

def in_release_here (info : GIFunctionInfo) (function : Function) (gi : Nat) : Bool :=
  let a := g_callable_info_load_arg info gi
  (decide (a.direction = GIDirection.GI_DIRECTION_IN) ||
   decide (a.direction = GIDirection.GI_DIRECTION_INOUT)) &&
  (decide (function.param_types.getD gi ParamType.PARAM_NORMAL = ParamType.PARAM_NORMAL) ||
   decide (function.param_types.getD gi ParamType.PARAM_NORMAL = ParamType.PARAM_ARRAY))

def free_here (info : GIFunctionInfo) (function : Function) (gi : Nat) : Bool :=
  let a := g_callable_info_load_arg info gi
  (decide (a.direction = GIDirection.GI_DIRECTION_OUT) ||
   decide (a.direction = GIDirection.GI_DIRECTION_INOUT)) &&
  decide (function.param_types.getD gi ParamType.PARAM_NORMAL ≠ ParamType.PARAM_SKIPPED) &&
  a.caller_allocates

def c1_struct_type : GITypeInfo :=
  { tag := GITypeTag.GI_TYPE_TAG_INTERFACE,
    interface := some { info_type := GIInfoType.GI_INFO_TYPE_STRUCT,
                        name := "Rect", ns := "Ns", size := 16 } }

def c1_info : GIFunctionInfo :=
  { args := [
      { direction := GIDirection.GI_DIRECTION_OUT, type_info := c1_struct_type,
        caller_allocates := true },
      { direction := GIDirection.GI_DIRECTION_IN,
        type_info := { tag := GITypeTag.GI_TYPE_TAG_INT32 } } ],
    return_type := { tag := GITypeTag.GI_TYPE_TAG_VOID } }

def c1_f : Function :=
  { param_types := [ParamType.PARAM_NORMAL, ParamType.PARAM_NORMAL],
    expected_js_argc := 1, js_out_argc := 1 }

def c1_env_fail : Env :=
  { test_env with gjs_value_to_arg := fun _ _ => none }

def c6_info : GIFunctionInfo :=
  { args := [ { direction := GIDirection.GI_DIRECTION_IN,
                type_info := { tag := GITypeTag.GI_TYPE_TAG_INT32 } } ],
    return_type := { tag := GITypeTag.GI_TYPE_TAG_VOID },
    can_throw_gerror := true }

def c6_f : Function :=
  { param_types := [ParamType.PARAM_NORMAL], expected_js_argc := 1, js_out_argc := 0 }

def c6_env : Env :=
  { test_env with native := fun _ =>
      { return_value := GArg.v_int 0, out_writes := fun _ => none,
        gerror := some "boom" } }

def js_consumes (info : GIFunctionInfo) (function : Function) (gi : Nat) : Nat :=
  if (g_callable_info_load_arg info gi).direction = GIDirection.GI_DIRECTION_OUT then 0
  else if function.param_types.getD gi ParamType.PARAM_NORMAL =
      ParamType.PARAM_SKIPPED then 0
  else 1

def js_consumed (info : GIFunctionInfo) (function : Function) (L : List Nat) : Nat :=
  (L.map (js_consumes info function)).sum

def c5_info : GIFunctionInfo :=
  { args := [ { direction := GIDirection.GI_DIRECTION_IN,
                type_info := { tag := GITypeTag.GI_TYPE_TAG_INT32 } } ],
    return_type := { tag := GITypeTag.GI_TYPE_TAG_VOID } }

def c5_f : Function :=
  { param_types := [ParamType.PARAM_NORMAL], expected_js_argc := 1, js_out_argc := 0 }

/-- The classification step can never produce the destroy-without-user-data
rejection: its guard compares the `guint8` locals `destroy` and `closure`
with 0, and `closure < 0` is unsatisfiable for an unsigned value. -/
theorem init_classify_arg_no_destroy_error (info : GIFunctionInfo) (n_args : Nat)
    (f : Function) (i : Nat) :
    is_destroy_user_data_error (init_classify_arg info n_args f i) = false := by
  unfold init_classify_arg
  dsimp only
  repeat' split
  all_goals try rfl
  all_goals omega

/-- Lift of `init_classify_arg_no_destroy_error` to the full loop body. -/
theorem init_loop_step_no_destroy_error (info : GIFunctionInfo) (n_args : Nat)
    (f : Function) (i : Nat) :
    is_destroy_user_data_error (init_loop_step info n_args f i) = false := by
  unfold init_loop_step
  split
  · rfl
  · cases h : init_classify_arg info n_args f i with
    | error e =>
      have h2 := init_classify_arg_no_destroy_error info n_args f i
      rw [h] at h2
      simpa using h2
    | ok f1 => rfl

/-- Lift of `init_loop_step_no_destroy_error` over the classification
fold. -/
theorem init_no_destroy_error_fold (info : GIFunctionInfo) (n_args : Nat) :
    ∀ (L : List Nat) (f : Function),
      is_destroy_user_data_error (List.foldlM (init_loop_step info n_args) f L) = false
  | [], _ => rfl
  | i :: L, f => by
    rw [List.foldlM_cons]
    cases h : init_loop_step info n_args f i with
    | error e =>
      have h2 := init_loop_step_no_destroy_error info n_args f i
      rw [h] at h2
      simpa [Except.bind] using h2
    | ok f1 =>
      have h3 := init_no_destroy_error_fold info n_args L f1
      simpa [Except.bind] using h3

/-- The destroy-without-user-data rejection of lines 1163-1168 is dead
code: no descriptor build ever returns it. -/
theorem init_no_destroy_error (info : GIFunctionInfo) :
    is_destroy_user_data_error (init_cached_function_data info) = false := by
  unfold init_cached_function_data
  exact init_no_destroy_error_fold info _ _ _

/-!
Supporting lemmas about the trampoline lifecycle model.
-/

theorem completed_trampolines_ref (w : TrampWorld) (t : Nat) :
    (gjs_callback_trampoline_ref w t).completed_trampolines = w.completed_trampolines := rfl

theorem completed_trampolines_unref (w : TrampWorld) (t : Nat) :
    (gjs_callback_trampoline_unref w t).completed_trampolines = w.completed_trampolines := by
  unfold gjs_callback_trampoline_unref
  dsimp only
  split <;> rfl

theorem completed_trampolines_new (w : TrampWorld) (t : Nat) :
    (gjs_callback_trampoline_new w t).completed_trampolines = w.completed_trampolines := rfl

theorem completed_trampolines_drain (w : TrampWorld) :
    (drain_completed_trampolines w).completed_trampolines = [] := rfl

theorem ref_count_unref_other (w : TrampWorld) (t u : Nat) (h : u ≠ t) :
    (gjs_callback_trampoline_unref w t).ref_count u = w.ref_count u := by
  unfold gjs_callback_trampoline_unref
  dsimp only
  split <;> simp [h]

theorem freed_unref_other (w : TrampWorld) (t u : Nat) (h : u ≠ t) :
    (u ∈ (gjs_callback_trampoline_unref w t).freed ↔ u ∈ w.freed) := by
  unfold gjs_callback_trampoline_unref
  dsimp only
  split
  · simp [h]
  · exact Iff.rfl

theorem foldl_unref_preserves (t : Nat) :
    ∀ (L : List Nat) (w : TrampWorld), t ∉ L →
      ((L.foldl (fun acc u => gjs_callback_trampoline_unref acc u) w).ref_count t =
        w.ref_count t ∧
       (t ∈ (L.foldl (fun acc u => gjs_callback_trampoline_unref acc u) w).freed ↔
        t ∈ w.freed))
  | [], _, _ => ⟨rfl, Iff.rfl⟩
  | u :: L, w, h => by
    simp only [List.foldl_cons]
    have hne : t ≠ u := by
      intro e
      exact h (e ▸ List.mem_cons_self u L)
    obtain ⟨h1, h2⟩ := foldl_unref_preserves t L (gjs_callback_trampoline_unref w u)
      (fun hm => h (List.mem_cons_of_mem _ hm))
    exact ⟨h1.trans (ref_count_unref_other w u t hne),
           h2.trans (freed_unref_other w u t hne)⟩

/-- Draining touches only trampolines on the pending list. -/
theorem drain_preserves_other (w : TrampWorld) (t : Nat)
    (h : t ∉ w.completed_trampolines) :
    (drain_completed_trampolines w).ref_count t = w.ref_count t ∧
    (t ∈ (drain_completed_trampolines w).freed ↔ t ∈ w.freed) := by
  unfold drain_completed_trampolines
  exact foldl_unref_preserves t w.completed_trampolines w h

theorem ref_count_new_self (w : TrampWorld) (t : Nat) :
    (gjs_callback_trampoline_new w t).ref_count t = 1 := by
  simp [gjs_callback_trampoline_new]

theorem ref_count_ref_self (w : TrampWorld) (t : Nat) :
    (gjs_callback_trampoline_ref w t).ref_count t = w.ref_count t + 1 := by
  simp [gjs_callback_trampoline_ref]

theorem freed_new (w : TrampWorld) (t : Nat) :
    (gjs_callback_trampoline_new w t).freed = w.freed := rfl

theorem freed_ref (w : TrampWorld) (t : Nat) :
    (gjs_callback_trampoline_ref w t).freed = w.freed := rfl

theorem epilogue_ref_count (w : TrampWorld) (t : Nat) (s : GIScopeType) (u : Nat) :
    (gjs_callback_closure_epilogue w t s).ref_count u = w.ref_count u := by
  unfold gjs_callback_closure_epilogue
  split <;> rfl

theorem epilogue_freed (w : TrampWorld) (t : Nat) (s : GIScopeType) :
    (gjs_callback_closure_epilogue w t s).freed = w.freed := by
  unfold gjs_callback_closure_epilogue
  split <;> rfl

/-- A `Call`-scoped closure finish never touches the pending-release
list, so iterating it is the identity. -/
theorem iterate_epilogue_call (t : Nat) (k : Nat) (w : TrampWorld) :
    (fun x => gjs_callback_closure_epilogue x t GIScopeType.GI_SCOPE_TYPE_CALL)^[k] w = w :=
  Function.iterate_fixed rfl k

theorem unref_nonzero (w : TrampWorld) (t : Nat) (h : ¬ w.ref_count t - 1 = 0) :
    gjs_callback_trampoline_unref w t =
      { w with ref_count := fun u => if u = t then w.ref_count t - 1 else w.ref_count u } := by
  unfold gjs_callback_trampoline_unref
  dsimp only
  rw [if_neg h]

theorem unref_zero (w : TrampWorld) (t : Nat) (h : w.ref_count t - 1 = 0) :
    gjs_callback_trampoline_unref w t =
      { w with ref_count := fun u => if u = t then w.ref_count t - 1 else w.ref_count u,
               freed := w.freed ++ [t] } := by
  unfold gjs_callback_trampoline_unref
  dsimp only
  rw [if_pos h]

theorem ref_count_unref_self (w : TrampWorld) (t : Nat) :
    (gjs_callback_trampoline_unref w t).ref_count t = w.ref_count t - 1 := by
  unfold gjs_callback_trampoline_unref
  dsimp only
  split <;> simp

theorem freed_unref_nonzero (w : TrampWorld) (t : Nat) (h : ¬ w.ref_count t - 1 = 0) :
    (gjs_callback_trampoline_unref w t).freed = w.freed := by
  rw [unref_nonzero w t h]

theorem mem_freed_unref_zero (w : TrampWorld) (t : Nat) (h : w.ref_count t - 1 = 0) :
    t ∈ (gjs_callback_trampoline_unref w t).freed := by
  rw [unref_zero w t h]
  simp

theorem drain_of_completed_singleton (w : TrampWorld) (t : Nat)
    (h : w.completed_trampolines = [t]) :
    drain_completed_trampolines w =
      { gjs_callback_trampoline_unref w t with completed_trampolines := [] } := by
  unfold drain_completed_trampolines
  rw [h]
  rfl

/-- The base state of an invocation (drain, create, optional extra
reference) always carries an empty pending-release list. -/
theorem invoke_base_completed (w : TrampWorld) (t : Nat) (scope : GIScopeType) :
    (if scope ≠ GIScopeType.GI_SCOPE_TYPE_CALL then
        gjs_callback_trampoline_ref (gjs_callback_trampoline_new
          (drain_completed_trampolines w) t) t
      else gjs_callback_trampoline_new
        (drain_completed_trampolines w) t).completed_trampolines = [] := by
  split <;> rfl

/-- Starting from an empty pending-release list, at most one closure
completion enqueues the trampoline at most once. -/
theorem count_after_epilogue_k (X : TrampWorld) (hX : X.completed_trampolines = [])
    (t : Nat) (scope : GIScopeType) (k : Nat) (hk : k ≤ 1) :
    (((fun x => gjs_callback_closure_epilogue x t scope)^[k]
      X).completed_trampolines).count t ≤ 1 := by
  interval_cases k
  · simp [hX]
  · rw [Function.iterate_one]
    unfold gjs_callback_closure_epilogue
    split <;> simp [hX]

/-!
Claim theorems.
-/

/-- C2 (code bug): the claim says that a function declaring, on some
callback parameter, a destroy-notifier but no user-data parameter fails to
build with `UnsupportedSignature`.  In the code the rejection is dead:
`destroy` and `closure` are `guint8` locals, so the guard
`destroy >= 0 && closure < 0` (line 1163) is unsatisfiable for unsigned
values and no descriptor build ever returns the error (first conjunct);
in particular the descriptor for `c2_info`, which has a destroy-notifier
and no user-data, builds successfully (second conjunct). -/
theorem C2_destroy_without_user_data_never_rejected :
    (∀ info : GIFunctionInfo,
      is_destroy_user_data_error (init_cached_function_data info) = false) ∧
    init_cached_function_data c2_info =
      Except.ok { param_types := [ParamType.PARAM_CALLBACK, ParamType.PARAM_SKIPPED],
                  expected_js_argc := 1, js_out_argc := 0 } :=
  ⟨init_no_destroy_error, rfl⟩

/-- C4 (code bug): for an out-direction array whose out-direction length
parameter precedes it, the length parameter contributed nothing to
`expected_js_argc` when it was classified `PARAM_NORMAL` (only to
`js_out_argc`), yet line 1192 decrements `expected_js_argc`
unconditionally, wrapping the `guint8` counter from 0 to 255 (first
conjunct) — more than the contribution already made, contradicting the
claim.  For the in-direction version of the same signature the decrement
matches the earlier contribution exactly (second conjunct). -/
theorem C4_out_direction_length_param_overdecrement :
    init_cached_function_data c4_info =
      Except.ok { param_types := [ParamType.PARAM_SKIPPED, ParamType.PARAM_ARRAY],
                  expected_js_argc := 255, js_out_argc := 1 } ∧
    init_cached_function_data c4_in_info =
      Except.ok { param_types := [ParamType.PARAM_SKIPPED, ParamType.PARAM_ARRAY],
                  expected_js_argc := 1, js_out_argc := 0 } :=
  ⟨rfl, rfl⟩

/-- C3 (counterexample): the claimed invariant that a trampoline appears in
the pending-release set at most once fails at a reachable state: if native
code invokes an async-scoped trampoline twice during the invocation that
marshaled it, the epilogue of `gjs_callback_closure` (lines 233-235)
prepends it to `completed_trampolines` twice, so after that invocation the
trampoline appears twice in the set. -/
theorem C3_counterexample_async_trampoline_enqueued_twice :
    (invoke_with_callback GIScopeType.GI_SCOPE_TYPE_ASYNC 0 2
        tramp_world0).completed_trampolines.count 0 = 2 := rfl

/-- C3 (amended): the pending-release set is drained (emptied) strictly
before any argument marshaling of a top-level invocation begins, and a
trampoline appears in the set at most once provided native code completes
at most one invocation of it between drains. -/
theorem C3_amended_drain_before_marshal_single_enqueue
    (w : TrampWorld) (scope : GIScopeType) (t : Nat) (k : Nat) (hk : k ≤ 1) :
    (drain_completed_trampolines w).completed_trampolines = [] ∧
    (invoke_with_callback scope t k w).completed_trampolines.count t ≤ 1 := by
  refine ⟨rfl, ?_⟩
  show (gjs_callback_trampoline_unref
      ((fun x => gjs_callback_closure_epilogue x t scope)^[k]
        (if scope ≠ GIScopeType.GI_SCOPE_TYPE_CALL then
          gjs_callback_trampoline_ref (gjs_callback_trampoline_new
            (drain_completed_trampolines w) t) t
        else gjs_callback_trampoline_new
          (drain_completed_trampolines w) t))
      t).completed_trampolines.count t ≤ 1
  rw [completed_trampolines_unref]
  exact count_after_epilogue_k _ (invoke_base_completed w t scope) t scope k hk

/-- Witness for the amended C3 theorem at concrete inputs. -/
theorem C3_amended_drain_before_marshal_single_enqueue_witness :
    (1 : Nat) ≤ 1 ∧
    ((drain_completed_trampolines tramp_world0).completed_trampolines = [] ∧
     (invoke_with_callback GIScopeType.GI_SCOPE_TYPE_ASYNC 5 1
        tramp_world0).completed_trampolines.count 5 ≤ 1) :=
  ⟨by decide,
   C3_amended_drain_before_marshal_single_enqueue tramp_world0
     GIScopeType.GI_SCOPE_TYPE_ASYNC 5 1 (by decide)⟩

/-- C7: for a fresh trampoline `t` (not on the pending list and never
freed), a `Call`-scoped trampoline is freed (reference count zero,
resources released by `gjs_callback_trampoline_unref`) by the end of the
very invocation that created it, however many times native code invoked it;
an `Async`-scoped trampoline whose single native invocation completed is
still alive (not freed, reference count 1) when its invocation returns, and
is freed, with reference count zero, at the drain performed by a following
top-level invocation. -/
theorem C7_call_scope_freed_same_invocation_async_freed_at_drain
    (w : TrampWorld) (t : Nat) (kc : Nat)
    (hfreed : t ∉ w.freed)
    (hcompleted : t ∉ w.completed_trampolines) :
    (t ∈ (invoke_with_callback GIScopeType.GI_SCOPE_TYPE_CALL t kc w).freed ∧
     (invoke_with_callback GIScopeType.GI_SCOPE_TYPE_CALL t kc w).ref_count t = 0) ∧
    (t ∉ (invoke_with_callback GIScopeType.GI_SCOPE_TYPE_ASYNC t 1 w).freed ∧
     (invoke_with_callback GIScopeType.GI_SCOPE_TYPE_ASYNC t 1 w).ref_count t = 1 ∧
     (t ∈ (drain_completed_trampolines
        (invoke_with_callback GIScopeType.GI_SCOPE_TYPE_ASYNC t 1 w)).freed ∧
      (drain_completed_trampolines
        (invoke_with_callback GIScopeType.GI_SCOPE_TYPE_ASYNC t 1 w)).ref_count t = 0)) := by
  constructor
  · have heq : invoke_with_callback GIScopeType.GI_SCOPE_TYPE_CALL t kc w =
        gjs_callback_trampoline_unref
          (gjs_callback_trampoline_new (drain_completed_trampolines w) t) t := by
      show gjs_callback_trampoline_unref
        ((fun x => gjs_callback_closure_epilogue x t GIScopeType.GI_SCOPE_TYPE_CALL)^[kc]
          (if GIScopeType.GI_SCOPE_TYPE_CALL ≠ GIScopeType.GI_SCOPE_TYPE_CALL then
            gjs_callback_trampoline_ref (gjs_callback_trampoline_new
              (drain_completed_trampolines w) t) t
          else gjs_callback_trampoline_new
            (drain_completed_trampolines w) t)) t = _
      rw [if_neg (by simp), iterate_epilogue_call]
    rw [heq]
    rw [unref_zero _ _ (by rw [ref_count_new_self]; decide)]
    constructor
    · simp
    · simp [ref_count_new_self]
  · have hbase_rc : (gjs_callback_trampoline_ref (gjs_callback_trampoline_new
        (drain_completed_trampolines w) t) t).ref_count t = 2 := by
      rw [ref_count_ref_self, ref_count_new_self]
      decide
    have heq : invoke_with_callback GIScopeType.GI_SCOPE_TYPE_ASYNC t 1 w =
        gjs_callback_trampoline_unref
          (gjs_callback_closure_epilogue
            (gjs_callback_trampoline_ref (gjs_callback_trampoline_new
              (drain_completed_trampolines w) t) t)
            t GIScopeType.GI_SCOPE_TYPE_ASYNC) t := by
      show gjs_callback_trampoline_unref
        ((fun x => gjs_callback_closure_epilogue x t GIScopeType.GI_SCOPE_TYPE_ASYNC)^[1]
          (if GIScopeType.GI_SCOPE_TYPE_ASYNC ≠ GIScopeType.GI_SCOPE_TYPE_CALL then
            gjs_callback_trampoline_ref (gjs_callback_trampoline_new
              (drain_completed_trampolines w) t) t
          else gjs_callback_trampoline_new
            (drain_completed_trampolines w) t)) t = _
      rw [if_pos (by simp), Function.iterate_one]
    have hXrc : (gjs_callback_closure_epilogue
        (gjs_callback_trampoline_ref (gjs_callback_trampoline_new
          (drain_completed_trampolines w) t) t)
        t GIScopeType.GI_SCOPE_TYPE_ASYNC).ref_count t = 2 := by
      rw [epilogue_ref_count, hbase_rc]
    have hdrainw := drain_preserves_other w t hcompleted
    have hXfreed : (gjs_callback_closure_epilogue
        (gjs_callback_trampoline_ref (gjs_callback_trampoline_new
          (drain_completed_trampolines w) t) t)
        t GIScopeType.GI_SCOPE_TYPE_ASYNC).freed = (drain_completed_trampolines w).freed := by
      rw [epilogue_freed, freed_ref, freed_new]
    have hXcomp : (gjs_callback_closure_epilogue
        (gjs_callback_trampoline_ref (gjs_callback_trampoline_new
          (drain_completed_trampolines w) t) t)
        t GIScopeType.GI_SCOPE_TYPE_ASYNC).completed_trampolines = [t] := by
      unfold gjs_callback_closure_epilogue
      rw [if_pos rfl]
      show t :: (gjs_callback_trampoline_ref (gjs_callback_trampoline_new
        (drain_completed_trampolines w) t) t).completed_trampolines = [t]
      rw [completed_trampolines_ref, completed_trampolines_new, completed_trampolines_drain]
    refine ⟨?_, ?_, ?_⟩
    · rw [heq, freed_unref_nonzero _ _ (by rw [hXrc]; decide), hXfreed]
      intro hmem
      exact hfreed (hdrainw.2.mp hmem)
    · rw [heq, ref_count_unref_self, hXrc]
      decide
    · rw [heq]
      have hZcomp : (gjs_callback_trampoline_unref
          (gjs_callback_closure_epilogue
            (gjs_callback_trampoline_ref (gjs_callback_trampoline_new
              (drain_completed_trampolines w) t) t)
            t GIScopeType.GI_SCOPE_TYPE_ASYNC) t).completed_trampolines = [t] := by
        rw [completed_trampolines_unref, hXcomp]
      have hZrc : (gjs_callback_trampoline_unref
          (gjs_callback_closure_epilogue
            (gjs_callback_trampoline_ref (gjs_callback_trampoline_new
              (drain_completed_trampolines w) t) t)
            t GIScopeType.GI_SCOPE_TYPE_ASYNC) t).ref_count t = 1 := by
        rw [ref_count_unref_self, hXrc]
        decide
      rw [drain_of_completed_singleton _ t hZcomp]
      constructor
      · show t ∈ (gjs_callback_trampoline_unref _ t).freed
        exact mem_freed_unref_zero _ t (by rw [hZrc]; decide)
      · show (gjs_callback_trampoline_unref _ t).ref_count t = 0
        rw [ref_count_unref_self, hZrc]
        decide

/-- Witness for the C7 theorem at concrete inputs. -/
theorem C7_call_scope_freed_same_invocation_async_freed_at_drain_witness :
    (0 ∉ tramp_world0.freed) ∧ (0 ∉ tramp_world0.completed_trampolines) ∧
    ((0 ∈ (invoke_with_callback GIScopeType.GI_SCOPE_TYPE_CALL 0 2 tramp_world0).freed ∧
      (invoke_with_callback GIScopeType.GI_SCOPE_TYPE_CALL 0 2 tramp_world0).ref_count 0 = 0) ∧
     (0 ∉ (invoke_with_callback GIScopeType.GI_SCOPE_TYPE_ASYNC 0 1 tramp_world0).freed ∧
      (invoke_with_callback GIScopeType.GI_SCOPE_TYPE_ASYNC 0 1 tramp_world0).ref_count 0 = 1 ∧
      (0 ∈ (drain_completed_trampolines
         (invoke_with_callback GIScopeType.GI_SCOPE_TYPE_ASYNC 0 1 tramp_world0)).freed ∧
       (drain_completed_trampolines
         (invoke_with_callback GIScopeType.GI_SCOPE_TYPE_ASYNC 0 1 tramp_world0)).ref_count 0 = 0))) :=
  ⟨by decide, by decide,
   C7_call_scope_freed_same_invocation_async_freed_at_drain tramp_world0 0 2
     (by decide) (by decide)⟩

/-- C9: whenever a trampoline invocation from native code fails at any step
(argument conversion, invocation of the wrapped callable, or result
conversion — exactly the cases in which the C `success` flag stays false),
`gjs_callback_closure` reports the failure through the exception channel
(`gjs_log_exception`) and fills the native return slot with the
type-appropriate default produced by `gjs_g_argument_init_default`, so the
native caller receives a well-formed result. -/
theorem C9_callback_failure_logs_and_defaults (env : CallbackEnv)
    (trampoline : TrampolineData) (args : List GArg)
    (h : (gjs_callback_closure env trampoline args).success = false) :
    (gjs_callback_closure env trampoline args).logged_exception = true ∧
    (gjs_callback_closure env trampoline args).result =
      env.gjs_g_argument_init_default trampoline.info.return_type := by
  cases hres : callback_success_path env trampoline args with
  | none => simp [gjs_callback_closure, hres]
  | some r => simp [gjs_callback_closure, hres] at h

/-- Witness for the C9 theorem: a wrapped callable that fails. -/
theorem C9_callback_failure_logs_and_defaults_witness :
    (gjs_callback_closure failing_callback_env c9_trampoline []).success = false ∧
    ((gjs_callback_closure failing_callback_env c9_trampoline []).logged_exception = true ∧
     (gjs_callback_closure failing_callback_env c9_trampoline []).result =
       failing_callback_env.gjs_g_argument_init_default c9_trampoline.info.return_type) :=
  ⟨rfl, C9_callback_failure_logs_and_defaults failing_callback_env c9_trampoline [] rfl⟩

/-- C10: a parameter whose type is the callback named `DestroyNotify` in
namespace `GLib`, not already marked as a companion of an earlier callback,
is assigned `PARAM_SKIPPED` based solely on that name-and-namespace match
(lines 1146-1149): the classification step marks it skipped and leaves
`expected_js_argc` and `js_out_argc` untouched (first conjunct, with the
resulting role `PARAM_SKIPPED`, not `PARAM_CALLBACK`, made explicit by the
second conjunct), and at marshal time a skipped non-out parameter consumes
no dynamic argument and changes nothing but the processed-argument count
(third conjunct). -/
theorem C10_destroy_notify_skipped_by_name (info : GIFunctionInfo) (n_args : Nat)
    (f : Function) (i : Nat) (interface_info : GIInterfaceInfo)
    (hi : i < f.param_types.length)
    (hnot : f.param_types.getD i ParamType.PARAM_NORMAL ≠ ParamType.PARAM_SKIPPED)
    (htag : (g_callable_info_load_arg info i).type_info.tag =
      GITypeTag.GI_TYPE_TAG_INTERFACE)
    (hint : (g_callable_info_load_arg info i).type_info.interface = some interface_info)
    (hcb : interface_info.info_type = GIInfoType.GI_INFO_TYPE_CALLBACK)
    (hname : interface_info.name = "DestroyNotify")
    (hns : interface_info.ns = "GLib") :
    (init_loop_step info n_args f i =
      Except.ok { f with param_types := f.param_types.set i ParamType.PARAM_SKIPPED }) ∧
    (f.param_types.set i ParamType.PARAM_SKIPPED).getD i ParamType.PARAM_NORMAL =
      ParamType.PARAM_SKIPPED ∧
    (∀ (env : Env) (fc : Function) (js_argv : List JSVal) (st : InvokeState),
      st.failed = false →
      (g_callable_info_load_arg info i).direction ≠ GIDirection.GI_DIRECTION_OUT →
      fc.param_types.getD i ParamType.PARAM_NORMAL = ParamType.PARAM_SKIPPED →
      marshal_one env info fc js_argv st i =
        { st with processed_c_args := st.processed_c_args + 1 }) := by
  have hset : (f.param_types.set i ParamType.PARAM_SKIPPED).getD i ParamType.PARAM_NORMAL =
      ParamType.PARAM_SKIPPED := by
    simp [List.getD_eq_getElem?_getD, List.getElem?_set_self', List.getElem?_eq_getElem hi]
  refine ⟨?_, hset, ?_⟩
  · unfold init_loop_step
    rw [if_neg hnot]
    unfold init_classify_arg
    dsimp only
    rw [htag, hint]
    simp only [hcb, hname, hns, if_pos]
    have hset2 := hset
    rw [List.getD_eq_getElem?_getD] at hset2
    simp [init_count_arg, hset2]
  · intro env fc js_argv st hfail hdir hsk
    unfold marshal_one marshal_in_arg
    rw [if_neg hdir]
    dsimp only
    rw [hsk]
    simp [hfail]

/-- Witness for the C10 theorem at concrete inputs. -/
theorem C10_destroy_notify_skipped_by_name_witness :
    (0 < c10_f0.param_types.length) ∧
    (init_loop_step c10_info 1 c10_f0 0 =
      Except.ok { c10_f0 with
        param_types := c10_f0.param_types.set 0 ParamType.PARAM_SKIPPED }) ∧
    (c10_f0.param_types.set 0 ParamType.PARAM_SKIPPED).getD 0 ParamType.PARAM_NORMAL =
      ParamType.PARAM_SKIPPED := by
  refine ⟨by decide, ?_, ?_⟩
  · exact (C10_destroy_notify_skipped_by_name c10_info 1 c10_f0 0
      { info_type := GIInfoType.GI_INFO_TYPE_CALLBACK, name := "DestroyNotify",
        ns := "GLib", size := 0 }
      (by decide) (by decide) rfl rfl rfl rfl rfl).1
  · exact (C10_destroy_notify_skipped_by_name c10_info 1 c10_f0 0
      { info_type := GIInfoType.GI_INFO_TYPE_CALLBACK, name := "DestroyNotify",
        ns := "GLib", size := 0 }
      (by decide) (by decide) rfl rfl rfl rfl rfl).2.1

set_option maxHeartbeats 2000000 in
/-- C8: one iteration of the marshaling loop for an inout-direction
`PARAM_ARRAY` parameter whose dynamic value converts to a NULL array
pointer (the JS `null` case of `gjs_value_to_explicit_array`): by the
special case of lines 581-593, the length parameter's in-slot, out-slot and
inout snapshot all hold the NULL pointer rather than a pointer to an
integer zero, so the native callee receives NULL in the length slot. -/
theorem C8_inout_array_null_propagates_null_length
    (env : Env) (info : GIFunctionInfo) (function : Function)
    (js_argv : List JSVal) (st : InvokeState) (gi : Nat) (len : Nat) (lv : GArg)
    (hfail : st.failed = false)
    (hdir : (g_callable_info_load_arg info gi).direction = GIDirection.GI_DIRECTION_INOUT)
    (hpt : function.param_types.getD gi ParamType.PARAM_NORMAL = ParamType.PARAM_ARRAY)
    (harr : env.gjs_value_to_explicit_array (js_argv.getD st.js_arg_pos JSVal.JSVAL_VOID)
      (g_callable_info_load_arg info gi) = some (GArg.v_null, len))
    (hlen : env.gjs_value_to_arg
      (g_callable_info_load_arg_i info
        (g_callable_info_load_arg info gi).type_info.array_length)
      (JSVal.int (Int.ofNat len)) = some lv)
    (halp : 0 ≤ (g_callable_info_load_arg info gi).type_info.array_length)
    (hlt_in : ((g_callable_info_load_arg info gi).type_info.array_length +
      (if info.is_method then 1 else 0)).toNat < st.in_arg_cvalues.length)
    (hlt_out : ((g_callable_info_load_arg info gi).type_info.array_length +
      (if info.is_method then 1 else 0)).toNat < st.out_arg_cvalues.length)
    (hlt_orig : ((g_callable_info_load_arg info gi).type_info.array_length +
      (if info.is_method then 1 else 0)).toNat < st.inout_original_arg_cvalues.length)
    (hne : ((g_callable_info_load_arg info gi).type_info.array_length +
      (if info.is_method then 1 else 0)).toNat ≠ (if info.is_method then 1 else 0) + gi) :
    (marshal_one env info function js_argv st gi).in_arg_cvalues.getD
      ((g_callable_info_load_arg info gi).type_info.array_length +
        (if info.is_method then 1 else 0)).toNat GArg.v_uninit = GArg.v_null ∧
    (marshal_one env info function js_argv st gi).out_arg_cvalues.getD
      ((g_callable_info_load_arg info gi).type_info.array_length +
        (if info.is_method then 1 else 0)).toNat GArg.v_uninit = GArg.v_null ∧
    (marshal_one env info function js_argv st gi).inout_original_arg_cvalues.getD
      ((g_callable_info_load_arg info gi).type_info.array_length +
        (if info.is_method then 1 else 0)).toNat GArg.v_uninit = GArg.v_null := by
  have hnneg : ¬ ((g_callable_info_load_arg info gi).type_info.array_length +
      (if info.is_method then 1 else 0) < 0) := by
    split <;> omega
  unfold marshal_one marshal_in_arg
  dsimp only
  rw [hdir]
  simp only [hpt, harr, hlen]
  simp only [setI, hnneg, if_neg, if_false]
  simp [hfail, hdir, List.getD_eq_getElem?_getD, List.getElem?_set_ne (Ne.symm hne),
    List.getElem?_set_self', List.getElem?_eq_getElem, hlt_in, hlt_out, hlt_orig]

/-- Witness for the C8 theorem at concrete inputs. -/
theorem C8_inout_array_null_propagates_null_length_witness :
    (test_env.gjs_value_to_explicit_array
      ([JSVal.JSVAL_NULL].getD c8_st0.js_arg_pos JSVal.JSVAL_VOID)
      (g_callable_info_load_arg c8_info 0) = some (GArg.v_null, 0)) ∧
    ((marshal_one test_env c8_info c8_f [JSVal.JSVAL_NULL] c8_st0 0).in_arg_cvalues.getD
      ((g_callable_info_load_arg c8_info 0).type_info.array_length +
        (if c8_info.is_method then 1 else 0)).toNat GArg.v_uninit = GArg.v_null ∧
     (marshal_one test_env c8_info c8_f [JSVal.JSVAL_NULL] c8_st0 0).out_arg_cvalues.getD
      ((g_callable_info_load_arg c8_info 0).type_info.array_length +
        (if c8_info.is_method then 1 else 0)).toNat GArg.v_uninit = GArg.v_null ∧
     (marshal_one test_env c8_info c8_f [JSVal.JSVAL_NULL] c8_st0
        0).inout_original_arg_cvalues.getD
      ((g_callable_info_load_arg c8_info 0).type_info.array_length +
        (if c8_info.is_method then 1 else 0)).toNat GArg.v_uninit = GArg.v_null) :=
  ⟨rfl, C8_inout_array_null_propagates_null_length test_env c8_info c8_f
    [JSVal.JSVAL_NULL] c8_st0 0 0 (GArg.v_int 0)
    rfl rfl rfl rfl rfl (by decide) (by decide) (by decide) (by decide) (by decide)⟩

theorem marshal_out_arg_not_failed (st : InvokeState) (arg_info : GIArgInfo) (c : Nat)
    (h : (marshal_out_arg st arg_info c).failed = false) :
    st.failed = false ∧
    (marshal_out_arg st arg_info c).processed_c_args = st.processed_c_args + 1 ∧
    (marshal_out_arg st arg_info c).allocs = st.allocs ++
      (if arg_info.caller_allocates && caller_allocates_supported arg_info
       then [c] else []) ∧
    (arg_info.caller_allocates = true → caller_allocates_supported arg_info = true) := by
  unfold marshal_out_arg at h ⊢
  unfold caller_allocates_supported
  repeat' split at h
  all_goals simp_all

theorem callback_companion_slots_failed (info : GIFunctionInfo) (arg_info : GIArgInfo)
    (st : InvokeState) (tr : Option Nat) :
    (callback_companion_slots info arg_info st tr).failed = st.failed := by
  unfold callback_companion_slots
  dsimp only
  repeat' split
  all_goals rfl

theorem callback_companion_slots_processed (info : GIFunctionInfo) (arg_info : GIArgInfo)
    (st : InvokeState) (tr : Option Nat) :
    (callback_companion_slots info arg_info st tr).processed_c_args =
      st.processed_c_args := by
  unfold callback_companion_slots
  dsimp only
  repeat' split
  all_goals rfl

theorem callback_companion_slots_allocs (info : GIFunctionInfo) (arg_info : GIArgInfo)
    (st : InvokeState) (tr : Option Nat) :
    (callback_companion_slots info arg_info st tr).allocs = st.allocs := by
  unfold callback_companion_slots
  dsimp only
  repeat' split
  all_goals rfl

set_option maxHeartbeats 4000000 in
theorem marshal_in_arg_not_failed (env : Env) (info : GIFunctionInfo)
    (function : Function) (js_argv : List JSVal) (st : InvokeState) (gi : Nat)
    (h : (marshal_in_arg env info function js_argv st gi).failed = false) :
    st.failed = false ∧
    (marshal_in_arg env info function js_argv st gi).processed_c_args =
      st.processed_c_args + 1 ∧
    (marshal_in_arg env info function js_argv st gi).allocs = st.allocs := by
  unfold marshal_in_arg at h ⊢
  dsimp only at h ⊢
  cases hpt : function.param_types.getD gi ParamType.PARAM_NORMAL
  case PARAM_SKIPPED =>
    rw [hpt] at h
    dsimp only at h ⊢
    repeat' split at h
    all_goals simp_all
  case PARAM_NORMAL =>
    rw [hpt] at h
    dsimp only at h ⊢
    cases hcv : env.gjs_value_to_arg (g_callable_info_load_arg info gi)
        (js_argv.getD st.js_arg_pos JSVal.JSVAL_VOID) <;> rw [hcv] at h <;>
      dsimp only at h ⊢ <;> repeat' split at h
    all_goals simp_all
  case PARAM_ARRAY =>
    rw [hpt] at h
    dsimp only at h ⊢
    cases hav : env.gjs_value_to_explicit_array
        (js_argv.getD st.js_arg_pos JSVal.JSVAL_VOID)
        (g_callable_info_load_arg info gi)
    case none =>
      rw [hav] at h
      dsimp only at h ⊢
      repeat' split at h
      all_goals simp_all
    case some p =>
      rw [hav] at h
      dsimp only at h ⊢
      cases hlv : env.gjs_value_to_arg
          (g_callable_info_load_arg_i info
            (g_callable_info_load_arg info gi).type_info.array_length)
          (JSVal.int (Int.ofNat p.2)) <;> rw [hlv] at h <;>
        dsimp only at h ⊢ <;> repeat' split at h
      all_goals simp_all
  case PARAM_CALLBACK =>
    rw [hpt] at h
    dsimp only at h ⊢
    repeat' split at h
    all_goals simp_all [callback_companion_slots_failed,
      callback_companion_slots_processed, callback_companion_slots_allocs]

theorem marshal_one_not_failed (env : Env) (info : GIFunctionInfo) (function : Function)
    (js_argv : List JSVal) (st : InvokeState) (gi : Nat)
    (h : (marshal_one env info function js_argv st gi).failed = false) :
    st.failed = false ∧
    (marshal_one env info function js_argv st gi).processed_c_args =
      st.processed_c_args + 1 ∧
    (marshal_one env info function js_argv st gi).allocs = st.allocs ++
      (if alloc_here info gi then [(if info.is_method then 1 else 0) + gi] else []) ∧
    ((g_callable_info_load_arg info gi).caller_allocates = true →
     (g_callable_info_load_arg info gi).direction = GIDirection.GI_DIRECTION_OUT →
     alloc_here info gi = true) := by
  unfold marshal_one at h ⊢
  dsimp only at h ⊢
  by_cases hd : (g_callable_info_load_arg info gi).direction = GIDirection.GI_DIRECTION_OUT
  · rw [if_pos hd] at h ⊢
    obtain ⟨h1, h2, h3, h4⟩ := marshal_out_arg_not_failed _ _ _ h
    refine ⟨h1, h2, ?_, fun hca _ => ?_⟩
    · rw [h3]
      congr 1
      unfold alloc_here
      simp [hd]
    · unfold alloc_here
      simp [hd, hca, h4 hca]
  · rw [if_neg hd] at h ⊢
    obtain ⟨h1, h2, h3⟩ := marshal_in_arg_not_failed _ _ _ _ _ _ h
    have hfalse : alloc_here info gi = false := by
      unfold alloc_here
      simp [hd]
    refine ⟨h1, h2, ?_, fun _ hdir => absurd hdir hd⟩
    rw [h3, hfalse]
    simp

theorem marshal_loop_not_failed (env : Env) (info : GIFunctionInfo)
    (function : Function) (js_argv : List JSVal) :
    ∀ (L : List Nat) (st : InvokeState),
      (marshal_loop env info function js_argv st L).failed = false →
      st.failed = false ∧
      (marshal_loop env info function js_argv st L).processed_c_args =
        st.processed_c_args + L.length ∧
      (marshal_loop env info function js_argv st L).allocs = st.allocs ++
        L.filterMap (fun gi => if alloc_here info gi then
          some ((if info.is_method then 1 else 0) + gi) else none) ∧
      (∀ gi ∈ L, (g_callable_info_load_arg info gi).caller_allocates = true →
        (g_callable_info_load_arg info gi).direction = GIDirection.GI_DIRECTION_OUT →
        alloc_here info gi = true)
  | [], st, h => by
    refine ⟨by simpa [marshal_loop] using h, by simp [marshal_loop], by simp [marshal_loop], by simp⟩
  | gi :: L, st, h => by
    rw [marshal_loop] at h ⊢
    by_cases hf : (marshal_one env info function js_argv st gi).failed = true
    · rw [if_pos hf] at h
      rw [hf] at h
      exact absurd h (by simp)
    · rw [if_neg hf] at h ⊢
      have hf' : (marshal_one env info function js_argv st gi).failed = false := by
        simpa using hf
      obtain ⟨s1, s2, s3, s4⟩ := marshal_one_not_failed env info function js_argv st gi hf'
      obtain ⟨i1, i2, i3, i4⟩ := marshal_loop_not_failed env info function js_argv L
        (marshal_one env info function js_argv st gi) h
      refine ⟨s1, ?_, ?_, ?_⟩
      · rw [i2, s2]
        simp [List.length_cons]
        omega
      · rw [i3, s3, List.filterMap_cons]
        by_cases ha : alloc_here info gi = true
        · rw [ha]
          simp [List.append_assoc]
        · have ha' : alloc_here info gi = false := by simpa using ha
          rw [ha']
          simp
      · intro g hg
        rcases List.mem_cons.mp hg with hg1 | hg2
        · subst hg1
          exact s4
        · exact i4 g hg2

theorem release_in_payload_c (env : Env) (info : GIFunctionInfo) (function : Function)
    (rs : ReleaseState) (gi : Nat) :
    (release_in_payload env info function rs gi).c_arg_pos = rs.c_arg_pos := by
  unfold release_in_payload
  dsimp only
  repeat' split
  all_goals rfl

theorem release_in_payload_out_convs (env : Env) (info : GIFunctionInfo)
    (function : Function) (rs : ReleaseState) (gi : Nat) :
    (release_in_payload env info function rs gi).out_convs = rs.out_convs := by
  unfold release_in_payload
  dsimp only
  repeat' split
  all_goals rfl

theorem release_in_payload_frees (env : Env) (info : GIFunctionInfo)
    (function : Function) (rs : ReleaseState) (gi : Nat) :
    (release_in_payload env info function rs gi).frees = rs.frees := by
  unfold release_in_payload
  dsimp only
  repeat' split
  all_goals rfl

theorem release_in_payload_released_in (env : Env) (info : GIFunctionInfo)
    (function : Function) (rs : ReleaseState) (gi : Nat) :
    (release_in_payload env info function rs gi).released_in = rs.released_in ++
      (if function.param_types.getD gi ParamType.PARAM_NORMAL = ParamType.PARAM_ARRAY ∨
          function.param_types.getD gi ParamType.PARAM_NORMAL = ParamType.PARAM_NORMAL
       then [gi] else []) := by
  unfold release_in_payload
  dsimp only
  repeat' split
  all_goals simp_all

theorem release_in_payload_postinvoke (env : Env) (info : GIFunctionInfo)
    (function : Function) (rs : ReleaseState) (gi : Nat)
    (hrel1 : ∀ tr ti a, env.gjs_g_argument_release_in_arg tr ti a = true)
    (hrel2 : ∀ tr ti n a, env.gjs_g_argument_release_in_array tr ti n a = true) :
    (release_in_payload env info function rs gi).postinvoke_release_failed =
      rs.postinvoke_release_failed := by
  unfold release_in_payload
  dsimp only
  repeat' split
  all_goals simp_all [hrel1, hrel2]

theorem release_out_convert_basic (env : Env) (info : GIFunctionInfo)
    (rs1 : ReleaseState) (gi : Nat) (c : Nat) :
    (release_out_convert env info rs1 gi c).2.1.c_arg_pos = rs1.c_arg_pos ∧
    (release_out_convert env info rs1 gi c).2.1.frees = rs1.frees ∧
    (release_out_convert env info rs1 gi c).2.1.released_in = rs1.released_in := by
  unfold release_out_convert
  dsimp only
  repeat' split
  all_goals exact ⟨rfl, rfl, rfl⟩

theorem release_out_payload_c (env : Env) (info : GIFunctionInfo)
    (rs1 : ReleaseState) (gi : Nat) (c : Nat) :
    (release_out_payload env info rs1 gi c).c_arg_pos = rs1.c_arg_pos := by
  obtain ⟨h1, h2, h3⟩ := release_out_convert_basic env info rs1 gi c
  unfold release_out_payload
  dsimp only
  repeat' split
  all_goals simp [h1]

theorem release_out_payload_frees (env : Env) (info : GIFunctionInfo)
    (rs1 : ReleaseState) (gi : Nat) (c : Nat) :
    (release_out_payload env info rs1 gi c).frees = rs1.frees ++
      (if (g_callable_info_load_arg info gi).caller_allocates then [c] else []) := by
  obtain ⟨h1, h2, h3⟩ := release_out_convert_basic env info rs1 gi c
  unfold release_out_payload
  dsimp only
  repeat' split
  all_goals simp_all

theorem release_out_payload_released_in (env : Env) (info : GIFunctionInfo)
    (rs1 : ReleaseState) (gi : Nat) (c : Nat) :
    (release_out_payload env info rs1 gi c).released_in = rs1.released_in := by
  obtain ⟨h1, h2, h3⟩ := release_out_convert_basic env info rs1 gi c
  unfold release_out_payload
  dsimp only
  repeat' split
  all_goals simp [h3]

theorem release_one_c_arg_pos (env : Env) (info : GIFunctionInfo) (function : Function)
    (dt fl : Bool) (rs : ReleaseState) (gi : Nat) :
    (release_one env info function dt fl rs gi).c_arg_pos = rs.c_arg_pos + 1 := by
  unfold release_one
  dsimp only
  repeat' split
  all_goals simp [release_in_payload_c, release_out_payload_c]

theorem release_one_throw (env : Env) (info : GIFunctionInfo) (function : Function)
    (fl : Bool) (rs : ReleaseState) (gi : Nat)
    (hrel1 : ∀ tr ti a, env.gjs_g_argument_release_in_arg tr ti a = true)
    (hrel2 : ∀ tr ti n a, env.gjs_g_argument_release_in_array tr ti n a = true) :
    (release_one env info function true fl rs gi).out_convs = rs.out_convs ∧
    (release_one env info function true fl rs gi).frees = rs.frees ∧
    (release_one env info function true fl rs gi).postinvoke_release_failed =
      rs.postinvoke_release_failed ∧
    (release_one env info function true fl rs gi).released_in = rs.released_in ++
      (if in_release_here info function gi then [gi] else []) := by
  unfold release_one
  dsimp only
  rw [if_pos (Or.inl rfl)]
  split
  case isTrue hdir =>
    refine ⟨release_in_payload_out_convs .., release_in_payload_frees .., ?_, ?_⟩
    · exact release_in_payload_postinvoke env info function rs gi hrel1 hrel2
    · rw [release_in_payload_released_in]
      congr 1
      unfold in_release_here
      rcases hdir with h | h <;>
        rcases hpt : function.param_types.getD gi ParamType.PARAM_NORMAL <;>
          simp [h, hpt]
  case isFalse hdir =>
    have h1 : ¬ (g_callable_info_load_arg info gi).direction = GIDirection.GI_DIRECTION_IN :=
      fun hh => hdir (Or.inl hh)
    have h2 : ¬ (g_callable_info_load_arg info gi).direction =
        GIDirection.GI_DIRECTION_INOUT := fun hh => hdir (Or.inr hh)
    refine ⟨rfl, rfl, rfl, ?_⟩
    have hh : in_release_here info function gi = false := by
      unfold in_release_here
      simp [h1, h2]
    rw [hh]
    simp

theorem release_one_frees (env : Env) (info : GIFunctionInfo) (function : Function)
    (rs : ReleaseState) (gi : Nat) :
    (release_one env info function false false rs gi).frees = rs.frees ++
      (if free_here info function gi then [rs.c_arg_pos] else []) := by
  unfold release_one
  dsimp only
  rw [if_neg (by simp)]
  have hrs1frees : ∀ b : Prop, ∀ hb : Decidable b,
      (if b then release_in_payload env info function rs gi else rs).frees = rs.frees := by
    intro b hb
    split
    · exact release_in_payload_frees ..
    · rfl
  split
  case isTrue hout =>
    rw [release_out_payload_frees, hrs1frees]
    congr 1
    obtain ⟨hd, hpt⟩ := hout
    unfold free_here
    rw [List.getD_eq_getElem?_getD] at hpt
    rcases hd with h | h <;> simp [h, hpt]
  case isFalse hout =>
    rw [hrs1frees]
    have hh : free_here info function gi = false := by
      unfold free_here
      dsimp only
      rcases not_and_or.mp hout with h | h
      · rcases not_or.mp h with ⟨ha, hb⟩
        simp [ha, hb]
      · rw [not_not] at h
        rw [List.getD_eq_getElem?_getD] at h
        simp [h]
    rw [hh]
    simp

theorem release_loop_throw_spec (env : Env) (info : GIFunctionInfo) (function : Function)
    (fl : Bool) (processed : Nat)
    (hrel1 : ∀ tr ti a, env.gjs_g_argument_release_in_arg tr ti a = true)
    (hrel2 : ∀ tr ti n a, env.gjs_g_argument_release_in_array tr ti n a = true) :
    ∀ (n g : Nat) (rs : ReleaseState), rs.c_arg_pos + n ≤ processed →
      (release_loop env info function true fl processed rs (List.range' g n)).out_convs =
        rs.out_convs ∧
      (release_loop env info function true fl processed rs (List.range' g n)).frees =
        rs.frees ∧
      (release_loop env info function true fl processed rs
        (List.range' g n)).postinvoke_release_failed = rs.postinvoke_release_failed ∧
      (release_loop env info function true fl processed rs (List.range' g n)).released_in =
        rs.released_in ++
          (List.range' g n).filter (fun gi => in_release_here info function gi)
  | 0, g, rs, _ => by simp [List.range', release_loop]
  | n+1, g, rs, hle => by
    rw [List.range'_succ, release_loop]
    rw [if_pos (by omega)]
    obtain ⟨t1, t2, t3, t4⟩ := release_one_throw env info function fl rs g hrel1 hrel2
    have hc := release_one_c_arg_pos env info function true fl rs g
    obtain ⟨i1, i2, i3, i4⟩ := release_loop_throw_spec env info function fl processed
      hrel1 hrel2 n (g+1) (release_one env info function true fl rs g) (by omega)
    refine ⟨by rw [i1, t1], by rw [i2, t2], by rw [i3, t3], ?_⟩
    rw [i4, t4, List.filter_cons]
    by_cases hh : in_release_here info function g = true
    · rw [hh]
      simp
    · have hh' : in_release_here info function g = false := by simpa using hh
      rw [hh']
      simp

theorem release_loop_frees_spec (env : Env) (info : GIFunctionInfo) (function : Function)
    (processed : Nat) :
    ∀ (n g : Nat) (rs : ReleaseState) (d : Nat), rs.c_arg_pos = d + g →
      d + g + n ≤ processed →
      (release_loop env info function false false processed rs (List.range' g n)).frees =
        rs.frees ++ (List.range' g n).filterMap (fun gi =>
          if free_here info function gi then some (d + gi) else none)
  | 0, g, rs, d, _, _ => by simp [List.range', release_loop]
  | n+1, g, rs, d, hcd, hle => by
    rw [List.range'_succ, release_loop]
    rw [if_pos (by omega)]
    have t := release_one_frees env info function rs g
    have hc := release_one_c_arg_pos env info function false false rs g
    have ih := release_loop_frees_spec env info function processed n (g+1)
      (release_one env info function false false rs g) d (by rw [hc, hcd]; omega) (by omega)
    rw [ih, t, List.filterMap_cons]
    by_cases hh : free_here info function g = true
    · rw [hh, hcd]
      simp
    · have hh' : free_here info function g = false := by simpa using hh
      rw [hh']
      simp

theorem invoke_state_start_basic (env : Env) (info : GIFunctionInfo) :
    (invoke_state_start env info).allocs = [] ∧
    (invoke_state_start env info).js_arg_pos = 0 ∧
    (invoke_state_start env info).tramp_events = [] ∧
    (invoke_state_start env info).next_tramp = 0 := by
  unfold invoke_state_start
  dsimp only
  repeat' split
  all_goals exact ⟨rfl, rfl, rfl, rfl⟩

theorem invoke_marshal_not_failed (env : Env) (info : GIFunctionInfo)
    (function : Function) (js_argv : List JSVal)
    (h : (invoke_marshal env info function js_argv).failed = false) :
    (invoke_marshal env info function js_argv).processed_c_args =
      (if info.is_method then 1 else 0) + g_callable_info_get_n_args info ∧
    (invoke_marshal env info function js_argv).allocs =
      (List.range (g_callable_info_get_n_args info)).filterMap (fun gi =>
        if alloc_here info gi then some ((if info.is_method then 1 else 0) + gi)
        else none) ∧
    (∀ gi ∈ List.range (g_callable_info_get_n_args info),
      (g_callable_info_load_arg info gi).caller_allocates = true →
      (g_callable_info_load_arg info gi).direction = GIDirection.GI_DIRECTION_OUT →
      alloc_here info gi = true) := by
  unfold invoke_marshal at h ⊢
  dsimp only at h ⊢
  by_cases hf : (invoke_state_start env info).failed = true
  · rw [if_pos hf] at h
    rw [hf] at h
    exact absurd h (by simp)
  · rw [if_neg hf] at h ⊢
    obtain ⟨l1, l2, l3, l4⟩ := marshal_loop_not_failed env info function js_argv
      (List.range (g_callable_info_get_n_args info))
      { invoke_state_start env info with
        processed_c_args := if info.is_method then 1 else 0 } h
    refine ⟨?_, ?_, l4⟩
    · rw [l2]
      simp [List.length_range]
    · rw [l3]
      dsimp only
      rw [(invoke_state_start_basic env info).1]
      simp

theorem invoke_finish_projections (env : Env) (info : GIFunctionInfo)
    (function : Function) (st : InvokeState) (rp : ResultPhase) (dt : Bool)
    (gmsg : Option String) (nc : Bool) :
    (invoke_finish env info function st rp dt gmsg nc).did_throw_gerror = dt ∧
    (invoke_finish env info function st rp dt gmsg nc).gerror_msg = gmsg ∧
    (invoke_finish env info function st rp dt gmsg nc).allocs = st.allocs ∧
    (invoke_finish env info function st rp dt gmsg nc).failed_before_release = rp.failed ∧
    (invoke_finish env info function st rp dt gmsg nc).marshal_failed = st.failed ∧
    (invoke_finish env info function st rp dt gmsg nc).native_called = nc :=
  ⟨rfl, rfl, rfl, rfl, rfl, rfl⟩

theorem invoke_finish_frees (env : Env) (info : GIFunctionInfo) (function : Function)
    (st : InvokeState) (rp : ResultPhase) (gmsg : Option String) (nc : Bool)
    (hfl : rp.failed = false)
    (hproc : (if info.is_method then 1 else 0) + g_callable_info_get_n_args info ≤
      st.processed_c_args) :
    (invoke_finish env info function st rp false gmsg nc).frees =
      (List.range (g_callable_info_get_n_args info)).filterMap (fun gi =>
        if free_here info function gi then
          some ((if info.is_method then 1 else 0) + gi) else none) := by
  unfold invoke_finish
  dsimp only
  rw [hfl, List.range_eq_range']
  rw [release_loop_frees_spec env info function st.processed_c_args
    (g_callable_info_get_n_args info) 0
    { in_arg_cvalues := st.in_arg_cvalues,
      out_arg_cvalues := st.out_arg_cvalues,
      inout_original_arg_cvalues := st.inout_original_arg_cvalues,
      c_arg_pos := if info.is_method then 1 else 0,
      next_rval := rp.next_rval, return_values := rp.return_values,
      postinvoke_release_failed := false, frees := [], released_in := [],
      out_convs := rp.out_convs, tramp_events := st.tramp_events }
    (if info.is_method then 1 else 0) rfl (by simpa using hproc)]
  simp

theorem return_value_phase_throw (env : Env) (info : GIFunctionInfo)
    (function : Function) (beh : NativeBehavior) (st : InvokeState) :
    return_value_phase env info function beh st true =
      { return_values := [], next_rval := 0, failed := st.failed, out_convs := [] } := by
  unfold return_value_phase
  simp

theorem invoke_finish_throw (env : Env) (info : GIFunctionInfo) (function : Function)
    (st : InvokeState) (rp : ResultPhase) (gmsg : Option String) (nc : Bool)
    (hrel1 : ∀ tr ti a, env.gjs_g_argument_release_in_arg tr ti a = true)
    (hrel2 : ∀ tr ti n a, env.gjs_g_argument_release_in_array tr ti n a = true)
    (hfl : rp.failed = false)
    (hout : rp.out_convs = [])
    (hproc : (if info.is_method then 1 else 0) + g_callable_info_get_n_args info ≤
      st.processed_c_args) :
    (invoke_finish env info function st rp true gmsg nc).outcome =
      Outcome.exn (some (error_invoking_message info (gmsg.getD ""))) ∧
    (invoke_finish env info function st rp true gmsg nc).out_convs = [] ∧
    (invoke_finish env info function st rp true gmsg nc).released_in =
      (List.range (g_callable_info_get_n_args info)).filter
        (fun gi => in_release_here info function gi) := by
  unfold invoke_finish
  dsimp only
  rw [hfl, List.range_eq_range']
  obtain ⟨l1, l2, l3, l4⟩ := release_loop_throw_spec env info function false
    st.processed_c_args hrel1 hrel2 (g_callable_info_get_n_args info) 0
    { in_arg_cvalues := st.in_arg_cvalues,
      out_arg_cvalues := st.out_arg_cvalues,
      inout_original_arg_cvalues := st.inout_original_arg_cvalues,
      c_arg_pos := if info.is_method then 1 else 0,
      next_rval := rp.next_rval, return_values := rp.return_values,
      postinvoke_release_failed := false, frees := [], released_in := [],
      out_convs := rp.out_convs, tramp_events := st.tramp_events }
    (by simpa using hproc)
  rw [l1, l3, l4]
  dsimp only
  rw [hout]
  simp

theorem install_gerror_slot_basic (info : GIFunctionInfo) (st2 : InvokeState) :
    (install_gerror_slot info st2).failed = st2.failed ∧
    (install_gerror_slot info st2).allocs = st2.allocs ∧
    (install_gerror_slot info st2).processed_c_args = st2.processed_c_args := by
  unfold install_gerror_slot
  dsimp only
  split
  all_goals exact ⟨rfl, rfl, rfl⟩

theorem filterMap_congr_mem {α β : Type} :
    ∀ (l : List α) (f g : α → Option β), (∀ a ∈ l, f a = g a) →
      l.filterMap f = l.filterMap g
  | [], _, _, _ => rfl
  | a :: l, f, g, h => by
    rw [List.filterMap_cons, List.filterMap_cons, h a (by simp),
      filterMap_congr_mem l f g (fun b hb => h b (by simp [hb]))]

theorem nodup_filterMap_offset (base : Nat) (p : Nat → Bool) (n : Nat) :
    ((List.range n).filterMap (fun gi =>
      if p gi then some (base + gi) else none)).Nodup := by
  apply List.Nodup.filterMap
  · intro a a' b hb hb'
    by_cases ha : p a = true
    · by_cases ha' : p a' = true
      · simp [ha, ha'] at hb hb'
        omega
      · simp [ha'] at hb'
    · simp [ha] at hb
  · exact List.nodup_range n

set_option maxHeartbeats 1000000 in
/-- C1 (amended): the release pass itself runs after every call attempt,
but caller-allocates blocks are freed only on runs where the callee
reported no `GError` and nothing failed before the release pass.  On such
clean runs, for well-formed metadata (every caller-allocates parameter is
out-direction and not skipped), the list of freed slots equals the list of
allocated slots, each slot exactly once. -/
theorem C1_amended_caller_allocates_freed_exactly_once
    (env : Env) (info : GIFunctionInfo) (function : Function) (js_argv : List JSVal)
    (hwf : ∀ gi, gi < g_callable_info_get_n_args info →
      (g_callable_info_load_arg info gi).caller_allocates = true →
      (g_callable_info_load_arg info gi).direction = GIDirection.GI_DIRECTION_OUT ∧
      function.param_types.getD gi ParamType.PARAM_NORMAL ≠ ParamType.PARAM_SKIPPED)
    (hnothrow : (gjs_invoke_c_function env info function js_argv).did_throw_gerror = false)
    (hnofail : (gjs_invoke_c_function env info function js_argv).failed_before_release =
      false) :
    (gjs_invoke_c_function env info function js_argv).frees =
      (gjs_invoke_c_function env info function js_argv).allocs ∧
    (gjs_invoke_c_function env info function js_argv).allocs.Nodup := by
  by_cases harity : js_argv.length < function.expected_js_argc
  · have he : gjs_invoke_c_function env info function js_argv =
        invoke_arity_failure info function js_argv.length := by
      unfold gjs_invoke_c_function
      rw [if_pos harity]
    rw [he]
    exact ⟨rfl, List.nodup_nil⟩
  · by_cases hfail : (invoke_marshal env info function js_argv).failed = true
    · have he : gjs_invoke_c_function env info function js_argv =
          invoke_finish env info function (invoke_marshal env info function js_argv)
            { return_values := [], next_rval := 0,
              failed := (invoke_marshal env info function js_argv).failed,
              out_convs := [] } false none false := by
        unfold gjs_invoke_c_function
        rw [if_neg harity]
        dsimp only
        rw [if_pos hfail]
      rw [he, (invoke_finish_projections env info function _ _ _ _ _).2.2.2.1] at hnofail
      dsimp only at hnofail
      rw [hfail] at hnofail
      exact absurd hnofail (by simp)
    · have hmf : (invoke_marshal env info function js_argv).failed = false := by
        simpa using hfail
      have he : gjs_invoke_c_function env info function js_argv =
          invoke_native_path env info function (invoke_marshal env info function js_argv) := by
        unfold gjs_invoke_c_function
        rw [if_neg harity]
        dsimp only
        rw [if_neg hfail]
      obtain ⟨hproc, hallocs, himp⟩ := invoke_marshal_not_failed env info function js_argv hmf
      rw [he] at hnothrow hnofail ⊢
      unfold invoke_native_path at hnothrow hnofail ⊢
      dsimp only at hnothrow hnofail ⊢
      set st2m := invoke_marshal env info function js_argv with hst2m
      set st3m := install_gerror_slot info st2m with hst3m
      set behm := env.native st3m.in_arg_cvalues with hbehm
      rw [(invoke_finish_projections env info function _ _ _ _ _).1] at hnothrow
      rw [hnothrow] at hnofail ⊢
      set st4m : InvokeState := { st3m with
        out_arg_cvalues :=
          apply_native_out_writes behm st3m.in_arg_cvalues st3m.out_arg_cvalues }
        with hst4m
      rw [(invoke_finish_projections env info function _ _ _ _ _).2.2.2.1] at hnofail
      have h4p : st4m.processed_c_args = (if info.is_method then 1 else 0) +
          g_callable_info_get_n_args info := by
        rw [hst4m]
        dsimp only
        rw [hst3m, (install_gerror_slot_basic info st2m).2.2]
        exact hproc
      have h4a : st4m.allocs = st2m.allocs := by
        rw [hst4m]
        dsimp only
        rw [hst3m, (install_gerror_slot_basic info st2m).2.1]
      refine ⟨?_, ?_⟩
      · rw [(invoke_finish_projections env info function st4m _ false _ true).2.2.1]
        rw [invoke_finish_frees env info function st4m _ _ true hnofail
          (le_of_eq h4p.symm)]
        rw [h4a, hallocs]
        apply filterMap_congr_mem
        intro gi hgi
        have hlt : gi < g_callable_info_get_n_args info := List.mem_range.mp hgi
        by_cases hca : (g_callable_info_load_arg info gi).caller_allocates = true
        · obtain ⟨hdir, hpt⟩ := hwf gi hlt hca
          have hAl : alloc_here info gi = true := himp gi hgi hca hdir
          have hFr : free_here info function gi = true := by
            unfold free_here
            rw [List.getD_eq_getElem?_getD] at hpt
            simp [hdir, hca, hpt]
          rw [hAl, hFr]
        · have hca' : (g_callable_info_load_arg info gi).caller_allocates = false := by
            simpa using hca
          have hAl : alloc_here info gi = false := by
            unfold alloc_here
            simp [hca']
          have hFr : free_here info function gi = false := by
            unfold free_here
            simp [hca']
          rw [hAl, hFr]
      · rw [(invoke_finish_projections env info function st4m _ false _ true).2.2.1]
        rw [h4a, hallocs]
        exact nodup_filterMap_offset _ _ _

/-- C1 (counterexample): the claim says every caller-allocates output block
is freed exactly once on every path, including argument-conversion failure.
For `c1_info` (an out caller-allocates struct parameter followed by an in
int32 parameter) under an environment whose in-conversion fails, marshaling
allocates the block for slot 0 and then fails, and the release pass — whose
out-processing is skipped by the `did_throw_gerror or failed` continue of
line 800 — frees nothing: the block leaks and the native call never runs. -/
theorem C1_counterexample_conversion_failure_leaks_block :
    (gjs_invoke_c_function c1_env_fail c1_info c1_f [JSVal.int 5]).allocs = [0] ∧
    (gjs_invoke_c_function c1_env_fail c1_info c1_f [JSVal.int 5]).frees = [] ∧
    (gjs_invoke_c_function c1_env_fail c1_info c1_f [JSVal.int 5]).native_called = false :=
  ⟨rfl, rfl, rfl⟩

/-- Witness for the C1 amended theorem at concrete inputs. -/
theorem C1_amended_witness :
    (∀ gi, gi < g_callable_info_get_n_args c1_info →
      (g_callable_info_load_arg c1_info gi).caller_allocates = true →
      (g_callable_info_load_arg c1_info gi).direction = GIDirection.GI_DIRECTION_OUT ∧
      c1_f.param_types.getD gi ParamType.PARAM_NORMAL ≠ ParamType.PARAM_SKIPPED) ∧
    (gjs_invoke_c_function test_env c1_info c1_f [JSVal.int 5]).did_throw_gerror = false ∧
    (gjs_invoke_c_function test_env c1_info c1_f
      [JSVal.int 5]).failed_before_release = false ∧
    ((gjs_invoke_c_function test_env c1_info c1_f [JSVal.int 5]).frees =
      (gjs_invoke_c_function test_env c1_info c1_f [JSVal.int 5]).allocs ∧
     (gjs_invoke_c_function test_env c1_info c1_f [JSVal.int 5]).allocs.Nodup) :=
  ⟨by decide, rfl, rfl,
   C1_amended_caller_allocates_freed_exactly_once test_env c1_info c1_f [JSVal.int 5]
     (by decide) rfl rfl⟩

set_option maxHeartbeats 1000000 in
/-- C6: when the callee reports failure through the dedicated `GError`
channel, the return-value phase is skipped and the release pass performs no
output conversion (`out_convs` stays empty), the invocation's only outcome
is the thrown `Error invoking Ns.fn: msg` exception carrying the native
error's message, and every in/inout argument classified normal or array is
still released (under release collaborators that report success). -/
theorem C6_error_channel_suppresses_outputs
    (env : Env) (info : GIFunctionInfo) (function : Function) (js_argv : List JSVal)
    (msg : String)
    (hrel1 : ∀ tr ti a, env.gjs_g_argument_release_in_arg tr ti a = true)
    (hrel2 : ∀ tr ti n a, env.gjs_g_argument_release_in_array tr ti n a = true)
    (hthrow : (gjs_invoke_c_function env info function js_argv).did_throw_gerror = true)
    (hmsg : (gjs_invoke_c_function env info function js_argv).gerror_msg = some msg) :
    (gjs_invoke_c_function env info function js_argv).outcome =
      Outcome.exn (some (error_invoking_message info msg)) ∧
    (gjs_invoke_c_function env info function js_argv).out_convs = [] ∧
    (gjs_invoke_c_function env info function js_argv).released_in =
      (List.range (g_callable_info_get_n_args info)).filter
        (fun gi => in_release_here info function gi) := by
  by_cases harity : js_argv.length < function.expected_js_argc
  · have he : gjs_invoke_c_function env info function js_argv =
        invoke_arity_failure info function js_argv.length := by
      unfold gjs_invoke_c_function
      rw [if_pos harity]
    rw [he] at hthrow
    exact absurd hthrow (by simp [invoke_arity_failure])
  · by_cases hfail : (invoke_marshal env info function js_argv).failed = true
    · have he : gjs_invoke_c_function env info function js_argv =
          invoke_finish env info function (invoke_marshal env info function js_argv)
            { return_values := [], next_rval := 0,
              failed := (invoke_marshal env info function js_argv).failed,
              out_convs := [] } false none false := by
        unfold gjs_invoke_c_function
        rw [if_neg harity]
        dsimp only
        rw [if_pos hfail]
      rw [he, (invoke_finish_projections env info function _ _ _ _ _).1] at hthrow
      exact absurd hthrow (by simp)
    · have hmf : (invoke_marshal env info function js_argv).failed = false := by
        simpa using hfail
      have he : gjs_invoke_c_function env info function js_argv =
          invoke_native_path env info function (invoke_marshal env info function js_argv) := by
        unfold gjs_invoke_c_function
        rw [if_neg harity]
        dsimp only
        rw [if_neg hfail]
      obtain ⟨hproc, hallocs, himp⟩ := invoke_marshal_not_failed env info function js_argv hmf
      rw [he] at hthrow hmsg ⊢
      unfold invoke_native_path at hthrow hmsg ⊢
      dsimp only at hthrow hmsg ⊢
      set st2m := invoke_marshal env info function js_argv with hst2m
      set st3m := install_gerror_slot info st2m with hst3m
      set behm := env.native st3m.in_arg_cvalues with hbehm
      rw [(invoke_finish_projections env info function _ _ _ _ _).1] at hthrow
      rw [hthrow] at hmsg ⊢
      have hct : info.can_throw_gerror = true := by
        have hx := hthrow
        simp only [Bool.and_eq_true] at hx
        exact hx.1
      rw [if_pos hct] at hmsg ⊢
      rw [(invoke_finish_projections env info function _ _ _ _ _).2.1] at hmsg
      rw [hmsg]
      set st4m : InvokeState := { st3m with
        out_arg_cvalues :=
          apply_native_out_writes behm st3m.in_arg_cvalues st3m.out_arg_cvalues }
        with hst4m
      rw [return_value_phase_throw env info function behm st4m]
      have h4f : st4m.failed = false := by
        rw [hst4m]
        dsimp only
        rw [hst3m, (install_gerror_slot_basic info st2m).1]
        exact hmf
      have h4p : st4m.processed_c_args = (if info.is_method then 1 else 0) +
          g_callable_info_get_n_args info := by
        rw [hst4m]
        dsimp only
        rw [hst3m, (install_gerror_slot_basic info st2m).2.2]
        exact hproc
      rw [h4f]
      obtain ⟨o1, o2, o3⟩ := invoke_finish_throw env info function st4m
        { return_values := [], next_rval := 0, failed := false, out_convs := [] }
        (some msg) true hrel1 hrel2 rfl rfl (le_of_eq h4p.symm)
      exact ⟨by rw [o1]; rfl, o2, o3⟩

/-- Witness for the C6 theorem at concrete inputs: a callee that reports
`boom` on the error channel. -/
theorem C6_error_channel_suppresses_outputs_witness :
    (∀ tr ti a, c6_env.gjs_g_argument_release_in_arg tr ti a = true) ∧
    (∀ tr ti n a, c6_env.gjs_g_argument_release_in_array tr ti n a = true) ∧
    (gjs_invoke_c_function c6_env c6_info c6_f [JSVal.int 5]).did_throw_gerror = true ∧
    (gjs_invoke_c_function c6_env c6_info c6_f [JSVal.int 5]).gerror_msg = some "boom" ∧
    ((gjs_invoke_c_function c6_env c6_info c6_f [JSVal.int 5]).outcome =
      Outcome.exn (some (error_invoking_message c6_info "boom")) ∧
     (gjs_invoke_c_function c6_env c6_info c6_f [JSVal.int 5]).out_convs = [] ∧
     (gjs_invoke_c_function c6_env c6_info c6_f [JSVal.int 5]).released_in =
      (List.range (g_callable_info_get_n_args c6_info)).filter
        (fun gi => in_release_here c6_info c6_f gi)) :=
  ⟨fun _ _ _ => rfl, fun _ _ _ _ => rfl, rfl, rfl,
   C6_error_channel_suppresses_outputs c6_env c6_info c6_f [JSVal.int 5] "boom"
     (fun _ _ _ => rfl) (fun _ _ _ _ => rfl) rfl rfl⟩

theorem js_consumed_cons (info : GIFunctionInfo) (function : Function) (gi : Nat)
    (L : List Nat) :
    js_consumed info function (gi :: L) =
      js_consumes info function gi + js_consumed info function L := by
  simp [js_consumed]

theorem marshal_out_arg_js_pos (st : InvokeState) (arg_info : GIArgInfo) (c : Nat) :
    (marshal_out_arg st arg_info c).js_arg_pos = st.js_arg_pos := by
  unfold marshal_out_arg
  repeat' split
  all_goals rfl

theorem callback_companion_slots_js (info : GIFunctionInfo) (arg_info : GIArgInfo)
    (st : InvokeState) (tr : Option Nat) :
    (callback_companion_slots info arg_info st tr).js_arg_pos = st.js_arg_pos := by
  unfold callback_companion_slots
  dsimp only
  repeat' split
  all_goals rfl

set_option maxHeartbeats 2000000 in
theorem marshal_in_arg_js_le (env : Env) (info : GIFunctionInfo) (function : Function)
    (js_argv : List JSVal) (st : InvokeState) (gi : Nat) :
    (marshal_in_arg env info function js_argv st gi).js_arg_pos ≤ st.js_arg_pos + 1 := by
  unfold marshal_in_arg
  dsimp only
  cases hpt : function.param_types.getD gi ParamType.PARAM_NORMAL
  case PARAM_SKIPPED =>
    dsimp only
    repeat' split
    all_goals simp_all
    all_goals omega
  case PARAM_NORMAL =>
    dsimp only
    cases hcv : env.gjs_value_to_arg (g_callable_info_load_arg info gi)
        (js_argv.getD st.js_arg_pos JSVal.JSVAL_VOID) <;>
      dsimp only <;> repeat' split
    all_goals simp_all
    all_goals omega
  case PARAM_ARRAY =>
    dsimp only
    cases hav : env.gjs_value_to_explicit_array
        (js_argv.getD st.js_arg_pos JSVal.JSVAL_VOID)
        (g_callable_info_load_arg info gi)
    case none =>
      dsimp only
      repeat' split
      all_goals simp_all
      all_goals omega
    case some p =>
      dsimp only
      cases hlv : env.gjs_value_to_arg
          (g_callable_info_load_arg_i info
            (g_callable_info_load_arg info gi).type_info.array_length)
          (JSVal.int (Int.ofNat p.2)) <;>
        dsimp only <;> repeat' split
      all_goals simp_all
      all_goals omega
  case PARAM_CALLBACK =>
    dsimp only
    repeat' split
    all_goals simp_all [callback_companion_slots_js]
    all_goals omega

set_option maxHeartbeats 2000000 in
theorem marshal_in_arg_js_skipped (env : Env) (info : GIFunctionInfo)
    (function : Function) (js_argv : List JSVal) (st : InvokeState) (gi : Nat)
    (hsk : function.param_types.getD gi ParamType.PARAM_NORMAL =
      ParamType.PARAM_SKIPPED) :
    (marshal_in_arg env info function js_argv st gi).js_arg_pos = st.js_arg_pos := by
  unfold marshal_in_arg
  dsimp only
  rw [hsk]
  dsimp only
  repeat' split
  all_goals simp_all
  all_goals (split <;> simp_all)

set_option maxHeartbeats 2000000 in
theorem marshal_one_js_pos_le (env : Env) (info : GIFunctionInfo) (function : Function)
    (js_argv : List JSVal) (st : InvokeState) (gi : Nat) :
    (marshal_one env info function js_argv st gi).js_arg_pos ≤
      st.js_arg_pos + js_consumes info function gi := by
  unfold marshal_one js_consumes
  dsimp only
  by_cases hd : (g_callable_info_load_arg info gi).direction = GIDirection.GI_DIRECTION_OUT
  · rw [if_pos hd, if_pos hd, marshal_out_arg_js_pos]
    omega
  · rw [if_neg hd, if_neg hd]
    by_cases hsk : function.param_types.getD gi ParamType.PARAM_NORMAL =
        ParamType.PARAM_SKIPPED
    · rw [if_pos hsk, marshal_in_arg_js_skipped env info function js_argv st gi hsk]
      omega
    · rw [if_neg hsk]
      exact marshal_in_arg_js_le env info function js_argv st gi

set_option maxHeartbeats 2000000 in
theorem marshal_one_argv_agree (env : Env) (info : GIFunctionInfo) (function : Function)
    (argv1 argv2 : List JSVal) (st : InvokeState) (gi : Nat)
    (h : argv1.getD st.js_arg_pos JSVal.JSVAL_VOID =
      argv2.getD st.js_arg_pos JSVal.JSVAL_VOID) :
    marshal_one env info function argv1 st gi =
      marshal_one env info function argv2 st gi := by
  unfold marshal_one marshal_in_arg
  rw [h]

theorem marshal_one_out_argv_irrelevant (env : Env) (info : GIFunctionInfo)
    (function : Function) (argv1 argv2 : List JSVal) (st : InvokeState) (gi : Nat)
    (hd : (g_callable_info_load_arg info gi).direction = GIDirection.GI_DIRECTION_OUT) :
    marshal_one env info function argv1 st gi =
      marshal_one env info function argv2 st gi := by
  unfold marshal_one
  rw [if_pos hd, if_pos hd]

set_option maxHeartbeats 2000000 in
theorem marshal_one_skipped_argv_irrelevant (env : Env) (info : GIFunctionInfo)
    (function : Function) (argv1 argv2 : List JSVal) (st : InvokeState) (gi : Nat)
    (hd : ¬ (g_callable_info_load_arg info gi).direction = GIDirection.GI_DIRECTION_OUT)
    (hsk : function.param_types.getD gi ParamType.PARAM_NORMAL =
      ParamType.PARAM_SKIPPED) :
    marshal_one env info function argv1 st gi =
      marshal_one env info function argv2 st gi := by
  unfold marshal_one marshal_in_arg
  rw [if_neg hd, if_neg hd]
  dsimp only
  rw [hsk]

set_option maxHeartbeats 2000000 in
theorem marshal_loop_argv_take (env : Env) (info : GIFunctionInfo)
    (function : Function) (argv : List JSVal) (k : Nat) :
    ∀ (L : List Nat) (st : InvokeState),
      st.js_arg_pos + js_consumed info function L ≤ k →
      marshal_loop env info function (argv.take k) st L =
        marshal_loop env info function argv st L
  | [], _, _ => rfl
  | gi :: L, st, hle => by
    rw [marshal_loop, marshal_loop]
    have hcons := js_consumed_cons info function gi L
    have hstep : marshal_one env info function (argv.take k) st gi =
        marshal_one env info function argv st gi := by
      by_cases hd : (g_callable_info_load_arg info gi).direction =
          GIDirection.GI_DIRECTION_OUT
      · exact marshal_one_out_argv_irrelevant env info function _ _ st gi hd
      · by_cases hsk : function.param_types.getD gi ParamType.PARAM_NORMAL =
            ParamType.PARAM_SKIPPED
        · exact marshal_one_skipped_argv_irrelevant env info function _ _ st gi hd hsk
        · apply marshal_one_argv_agree
          have hone : js_consumes info function gi = 1 := by
            unfold js_consumes
            rw [if_neg hd, if_neg hsk]
          have hlt : st.js_arg_pos < k := by
            rw [hcons, hone] at hle
            omega
          rw [List.getD_eq_getElem?_getD, List.getD_eq_getElem?_getD,
            List.getElem?_take, if_pos hlt]
    rw [hstep]
    by_cases hf : (marshal_one env info function argv st gi).failed = true
    · rw [if_pos hf, if_pos hf]
    · rw [if_neg hf, if_neg hf]
      apply marshal_loop_argv_take env info function argv k L
      have hstep2 := marshal_one_js_pos_le env info function argv st gi
      rw [hcons] at hle
      omega

theorem marshal_out_arg_no_ca_ok (st : InvokeState) (arg_info : GIArgInfo) (c : Nat)
    (hca : arg_info.caller_allocates = false) (hfail : st.failed = false) :
    (marshal_out_arg st arg_info c).failed = false := by
  unfold marshal_out_arg
  simp [hca, hfail]

set_option maxHeartbeats 2000000 in
theorem marshal_in_arg_normal_ok (env : Env) (info : GIFunctionInfo)
    (function : Function) (js_argv : List JSVal) (st : InvokeState) (gi : Nat)
    (hpt : function.param_types.getD gi ParamType.PARAM_NORMAL = ParamType.PARAM_NORMAL)
    (hconv : ∀ a v, (env.gjs_value_to_arg a v).isSome = true)
    (hfail : st.failed = false) :
    (marshal_in_arg env info function js_argv st gi).failed = false := by
  unfold marshal_in_arg
  dsimp only
  rw [hpt]
  obtain ⟨v, hv⟩ := Option.isSome_iff_exists.mp (hconv (g_callable_info_load_arg info gi)
    (js_argv.getD st.js_arg_pos JSVal.JSVAL_VOID))
  rw [hv]
  dsimp only
  repeat' split
  all_goals simp_all

theorem marshal_loop_all_normal_ok (env : Env) (info : GIFunctionInfo)
    (function : Function) (js_argv : List JSVal)
    (hconv : ∀ a v, (env.gjs_value_to_arg a v).isSome = true) :
    ∀ (L : List Nat) (st : InvokeState),
      (∀ gi ∈ L, function.param_types.getD gi ParamType.PARAM_NORMAL =
          ParamType.PARAM_NORMAL ∧
        (g_callable_info_load_arg info gi).caller_allocates = false) →
      st.failed = false →
      (marshal_loop env info function js_argv st L).failed = false
  | [], st, _, hf => by rw [marshal_loop]; exact hf
  | gi :: L, st, hall, hf => by
    rw [marshal_loop]
    obtain ⟨hpt, hca⟩ := hall gi (by simp)
    have hone : (marshal_one env info function js_argv st gi).failed = false := by
      unfold marshal_one
      dsimp only
      split
      · exact marshal_out_arg_no_ca_ok st _ _ hca hf
      · exact marshal_in_arg_normal_ok env info function js_argv st gi hpt hconv hf
    rw [if_neg (by rw [hone]; simp)]
    exact marshal_loop_all_normal_ok env info function js_argv hconv L _
      (fun g hg => hall g (by simp [hg])) hone

theorem invoke_state_start_not_method (env : Env) (info : GIFunctionInfo)
    (hm : info.is_method = false) :
    (invoke_state_start env info).failed = false := by
  unfold invoke_state_start
  simp [hm]

set_option maxHeartbeats 1000000 in
/-- C5: the arity check of lines 383-391 and the treatment of extra
arguments: (1) fewer dynamic arguments than `expected_js_argc` throws
`Too few arguments` and the native call is not attempted; (2) for an
all-normal scalar signature (non-method, no caller-allocates) with
successful conversions, supplying at least the expected number of
arguments reaches the native call with no marshaling failure; (3) when the
per-parameter dynamic-argument consumption fits in `expected_js_argc`,
supplying more arguments behaves exactly as if the extras were absent: the
whole invocation result equals that of the truncated argument list. -/
theorem C5_arity_check_and_extra_arguments
    (env : Env) (info : GIFunctionInfo) (function : Function) (js_argv : List JSVal) :
    (js_argv.length < function.expected_js_argc →
      (gjs_invoke_c_function env info function js_argv).outcome =
        Outcome.exn (some (too_few_arguments_message info function js_argv.length)) ∧
      (gjs_invoke_c_function env info function js_argv).native_called = false) ∧
    ((∀ gi ∈ List.range (g_callable_info_get_n_args info),
        function.param_types.getD gi ParamType.PARAM_NORMAL = ParamType.PARAM_NORMAL ∧
        (g_callable_info_load_arg info gi).caller_allocates = false) →
      (∀ a v, (env.gjs_value_to_arg a v).isSome = true) →
      info.is_method = false →
      function.expected_js_argc ≤ js_argv.length →
      (gjs_invoke_c_function env info function js_argv).native_called = true ∧
      (gjs_invoke_c_function env info function js_argv).marshal_failed = false) ∧
    (js_consumed info function (List.range (g_callable_info_get_n_args info)) ≤
        function.expected_js_argc →
      function.expected_js_argc ≤ js_argv.length →
      gjs_invoke_c_function env info function js_argv =
        gjs_invoke_c_function env info function
          (js_argv.take function.expected_js_argc)) := by
  refine ⟨?_, ?_, ?_⟩
  · intro harity
    have he : gjs_invoke_c_function env info function js_argv =
        invoke_arity_failure info function js_argv.length := by
      unfold gjs_invoke_c_function
      rw [if_pos harity]
    rw [he]
    exact ⟨rfl, rfl⟩
  · intro hall hconv hm hlen
    have harity : ¬ js_argv.length < function.expected_js_argc := by omega
    have h0 : (invoke_state_start env info).failed = false :=
      invoke_state_start_not_method env info hm
    have hmf : (invoke_marshal env info function js_argv).failed = false := by
      unfold invoke_marshal
      dsimp only
      rw [if_neg (by rw [h0]; simp)]
      exact marshal_loop_all_normal_ok env info function js_argv hconv _ _ hall h0
    have he : gjs_invoke_c_function env info function js_argv =
        invoke_native_path env info function (invoke_marshal env info function js_argv) := by
      unfold gjs_invoke_c_function
      rw [if_neg harity]
      dsimp only
      rw [if_neg (by rw [hmf]; simp)]
    rw [he]
    refine ⟨rfl, ?_⟩
    have hmm : (invoke_native_path env info function
        (invoke_marshal env info function js_argv)).marshal_failed =
        (install_gerror_slot info (invoke_marshal env info function js_argv)).failed := rfl
    rw [hmm, (install_gerror_slot_basic info _).1, hmf]
  · intro hcons hlen
    have hlen2 : (js_argv.take function.expected_js_argc).length =
        function.expected_js_argc := by
      rw [List.length_take]
      omega
    have hml : invoke_marshal env info function (js_argv.take function.expected_js_argc) =
        invoke_marshal env info function js_argv := by
      unfold invoke_marshal
      dsimp only
      by_cases h1 : (invoke_state_start env info).failed = true
      · rw [if_pos h1, if_pos h1]
      · rw [if_neg h1, if_neg h1]
        apply marshal_loop_argv_take
        have hjs := (invoke_state_start_basic env info).2.1
        show (invoke_state_start env info).js_arg_pos + _ ≤ _
        rw [hjs]
        omega
    have ha1 : ¬ js_argv.length < function.expected_js_argc := by omega
    have ha2 : ¬ (js_argv.take function.expected_js_argc).length <
        function.expected_js_argc := by
      rw [hlen2]
      omega
    unfold gjs_invoke_c_function
    rw [if_neg ha1, if_neg ha2]
    dsimp only
    rw [hml]

/-- Witness for the C5 theorem at concrete inputs: too few (0 of 1),
enough with extras (2 of 1), and equality with the truncated list. -/
theorem C5_arity_check_and_extra_arguments_witness :
    (([] : List JSVal).length < c5_f.expected_js_argc) ∧
    ((gjs_invoke_c_function test_env c5_info c5_f []).outcome =
       Outcome.exn (some (too_few_arguments_message c5_info c5_f
         ([] : List JSVal).length)) ∧
     (gjs_invoke_c_function test_env c5_info c5_f []).native_called = false) ∧
    ((gjs_invoke_c_function test_env c5_info c5_f
        [JSVal.int 5, JSVal.int 6]).native_called = true ∧
     (gjs_invoke_c_function test_env c5_info c5_f
        [JSVal.int 5, JSVal.int 6]).marshal_failed = false) ∧
    (gjs_invoke_c_function test_env c5_info c5_f [JSVal.int 5, JSVal.int 6] =
      gjs_invoke_c_function test_env c5_info c5_f
        ([JSVal.int 5, JSVal.int 6].take c5_f.expected_js_argc)) :=
  ⟨by decide,
   (C5_arity_check_and_extra_arguments test_env c5_info c5_f []).1 (by decide),
   (C5_arity_check_and_extra_arguments test_env c5_info c5_f
      [JSVal.int 5, JSVal.int 6]).2.1 (by decide)
     (fun a v => by cases v <;> rfl) rfl (by decide),
   (C5_arity_check_and_extra_arguments test_env c5_info c5_f
      [JSVal.int 5, JSVal.int 6]).2.2 (by decide) (by decide)⟩

end GjsFunction

